import Mathlib

/-!
# Verification of the pxfmt pixel-format conversion library

A shallow embedding of `src/src/extlib/pxfmt/pxfmt.cpp` (the pxfmt library of
the vogl repository) in Lean 4, together with theorems settling the claims
about it.

Modelling conventions:

* C `double` intermediate values are modelled as exact rationals (`ℚ`).
  C casts from `double` to unsigned/signed integer types truncate toward
  zero; out-of-range casts (undefined behaviour in C) are modelled as
  truncation followed by wrap-around modulo the target width.
* Machine integers are modelled as `Nat` with explicit `% 2^w` at the points
  where the C code performs width-limited arithmetic.
* Byte buffers are `Nat → Nat` maps from byte offset to byte value; scalars
  are read and written little-endian.
* `float` storage is decoded exactly (`f32ToRat`); encoding to `float`
  rounds to nearest (ties to even), with IEEE infinities/NaN outside the
  rational model (exponent-255 bit patterns decode to 0; no claim depends
  on them).
* The C `assert` statements of `pxfmt_convert_pixels` abort the program
  (with assertions enabled) before the pixel loop runs; they are modelled
  as error results carrying the identity of the failed assertion, returned
  together with the untouched destination buffer.
-/

/-- C `std::max<double>(a, b)`: `(a < b) ? b : a`. -/
def cmax (a b : ℚ) : ℚ := if a < b then b else a

/-- Truncation toward zero, as performed by C casts from `double` to an
integer type. -/
def ratTrunc (q : ℚ) : Int := if q < 0 then Int.ceil q else Int.floor q

/-- C cast `(uint32) d` of a `double`: truncate toward zero, wrap mod `2^32`
(the out-of-range case is UB in C; wrap-around is the model's choice). -/
def castU32q (q : ℚ) : Nat := ((ratTrunc q) % (4294967296 : Int)).toNat

/-- The value represented by the `bits`-wide stored pattern `b`
(two's complement when `signed` is true). -/
def toSignedInt (bits : Nat) (signed : Bool) (b : Nat) : Int :=
  if signed ∧ 2 ^ (bits - 1) ≤ b then (b : Int) - 2 ^ bits else (b : Int)

/-- C integer conversion of a stored scalar to `uint32`
(`(uint32) src[c]`): sign-extend if the storage type is signed, then wrap
modulo `2^32`. -/
def castU32ofStorage (bits : Nat) (signed : Bool) (b : Nat) : Nat :=
  ((toSignedInt bits signed b) % (4294967296 : Int)).toNat

/-- Round a rational to the nearest integer, ties to even. -/
def roundHalfEven (x : ℚ) : Int :=
  let f := Int.floor x
  let r := x - (f : ℚ)
  if r < 1/2 then f
  else if 1/2 < r then f + 1
  else if f % 2 = 0 then f else f + 1

/-- The rational value of an IEEE-754 single-precision bit pattern.
Exponent-255 patterns (infinities, NaN) are outside the rational model and
map to 0; no claim depends on them. -/
def f32ToRat (b0 : Nat) : ℚ :=
  let b : Nat := b0 % 4294967296
  let s : Nat := b / 2 ^ 31
  let e : Nat := (b / 2 ^ 23) % 2 ^ 8
  let m : Nat := b % 2 ^ 23
  let mag : ℚ :=
    if e = 0 then (m : ℚ) / 2 ^ 149
    else if e = 255 then 0
    else ((2 ^ 23 + m : Nat) : ℚ) * 2 ^ e / 2 ^ 150
  if s = 1 then -mag else mag

/-- The IEEE-754 single-precision bit pattern nearest to a rational
(round to nearest, ties to even; overflow gives the infinity pattern).
Models the C conversion of a `double`/integer value to `float` storage. -/
def f32OfRat (q : ℚ) : Nat :=
  if q = 0 then 0
  else
    let s : Nat := if q < 0 then 2 ^ 31 else 0
    let a : ℚ := if q < 0 then -q else q
    let r := (List.range 255).findSome? (fun e =>
      let m := (roundHalfEven (a * 2 ^ 149 / 2 ^ e)).toNat
      if m < 2 ^ 24 then some (s + e * 2 ^ 23 + m) else none)
    match r with
    | some b => b
    | none => s + 2139095040

/-- Read an `n`-byte little-endian scalar starting at byte offset `off`. -/
def readBytesLE (buf : Nat → Nat) (off : Nat) : Nat → Nat
  | 0 => 0
  | n + 1 => readBytesLE buf off n + (buf (off + n) % 256) * 256 ^ n

/-- Write the low `n` bytes of `v` little-endian at byte offset `off`. -/
def writeBytesLE (buf : Nat → Nat) (off n v : Nat) : Nat → Nat :=
  fun a => if off ≤ a ∧ a < off + n then (v / 256 ^ (a - off)) % 256 else buf a

/-- The C storage scalar types used as `m_formatted_type` in the descriptor
table (`uint8`/`int8`/`uint16`/`int16`/`uint32`/`int32`/`float`). -/
inductive cstor where
  | u8 | s8 | u16 | s16 | u32 | s32 | f32
  deriving DecidableEq

/-- Bit width of a storage scalar type. -/
def cstor.bits : cstor → Nat
  | .u8 => 8 | .s8 => 8 | .u16 => 16 | .s16 => 16 | _ => 32

/-- Whether a storage scalar type is a signed integer type. -/
def cstor.sgn : cstor → Bool
  | .s8 => true | .s16 => true | .s32 => true | _ => false

/-- Whether the storage scalar type is `float`. -/
def cstor.isF32 : cstor → Bool
  | .f32 => true | _ => false

/-- `max_values<is_signed, nbits>::m_max` from the source: the maximum value
of (and mask for) `nbits` bits: `(1 << nbits) - 1` unsigned,
`(1 << (nbits-1)) - 1` signed (with `nbits = 0` giving 0). -/
def max_values (signed : Bool) (nbits : Nat) : Nat :=
  if signed then (if 0 < nbits then 2 ^ (nbits - 1) - 1 else 0)
  else 2 ^ nbits - 1

/-- One row of the `pxfmt_per_fmt_info` compile-time table: storage type,
intermediate type (`true` = `double`, `false` = `uint32`), component count,
bytes per pixel, the four flags, and the per-component index / bit-width /
shift data of the `FMT_INFO` macro. -/
structure FmtInfo where
  storage : cstor
  itype_fp : Bool
  num_components : Nat
  bytes_per_pixel : Nat
  needs_fp : Bool
  is_normalized : Bool
  is_signed : Bool
  is_packed : Bool
  in0 : Int
  in1 : Int
  in2 : Int
  in3 : Int
  nb0 : Nat
  nb1 : Nat
  nb2 : Nat
  nb3 : Nat
  sh0 : Nat
  sh1 : Nat
  sh2 : Nat
  sh3 : Nat
  deriving DecidableEq

/-- Positional constructor mirroring the argument order of the C `FMT_INFO`
macro: format type, intermediate type, ncomps, bytes-per-pixel, needfp,
norm, is_signed, pack, indices, bit counts, shifts. -/
def mkfmt (ft : cstor) (it : Bool) (ncomps bypp : Nat)
    (needfp norm sgn pack : Bool)
    (i0 i1 i2 i3 : Int) (n0 n1 n2 n3 : Nat) (s0 s1 s2 s3 : Nat) : FmtInfo :=
  ⟨ft, it, ncomps, bypp, needfp, norm, sgn, pack,
   i0, i1, i2, i3, n0, n1, n2, n3, s0, s1, s2, s3⟩

/-- `m_index[c]`: the intermediate slot index of the format's `c`-th
component (−1 when the component is absent). -/
def FmtInfo.idx (f : FmtInfo) (c : Nat) : Int :=
  match c with
  | 0 => f.in0 | 1 => f.in1 | 2 => f.in2 | _ => f.in3

/-- The bit width of the format's `c`-th component. -/
def FmtInfo.nb (f : FmtInfo) (c : Nat) : Nat :=
  match c with
  | 0 => f.nb0 | 1 => f.nb1 | 2 => f.nb2 | _ => f.nb3

/-- `m_shift[c]`. -/
def FmtInfo.sh (f : FmtInfo) (c : Nat) : Nat :=
  match c with
  | 0 => f.sh0 | 1 => f.sh1 | 2 => f.sh2 | _ => f.sh3

/-- `m_max[c] = max_values<is_signed, nbits_c>::m_max`. -/
def FmtInfo.maxv (f : FmtInfo) (c : Nat) : Nat :=
  max_values f.is_signed (f.nb c)

/-- `m_mask[c] = m_max[c] << shift_c`, computed in `uint32`. -/
def FmtInfo.mask (f : FmtInfo) (c : Nat) : Nat :=
  (f.maxv c <<< f.sh c) % 4294967296

/-- Bytes of one storage scalar (`sizeof(m_formatted_type)`). -/
def FmtInfo.scalarBytes (f : FmtInfo) : Nat := f.storage.bits / 8

/-- The supported internal sized pixel formats (`pxfmt_sized_format`),
excluding the `PXFMT_INVALID` sentinel which is modelled by `Option.none`. -/
inductive pxfmt_sized_format where
  | PXFMT_R8_UNORM | PXFMT_R8_SNORM | PXFMT_R16_UNORM | PXFMT_R16_SNORM
  | PXFMT_R32_UNORM | PXFMT_R32_SNORM | PXFMT_R32_FLOAT
  | PXFMT_G8_UNORM | PXFMT_G8_SNORM | PXFMT_G16_UNORM | PXFMT_G16_SNORM
  | PXFMT_G32_UNORM | PXFMT_G32_SNORM | PXFMT_G32_FLOAT
  | PXFMT_B8_UNORM | PXFMT_B8_SNORM | PXFMT_B16_UNORM | PXFMT_B16_SNORM
  | PXFMT_B32_UNORM | PXFMT_B32_SNORM | PXFMT_B32_FLOAT
  | PXFMT_A8_UNORM | PXFMT_A8_SNORM | PXFMT_A16_UNORM | PXFMT_A16_SNORM
  | PXFMT_A32_UNORM | PXFMT_A32_SNORM | PXFMT_A32_FLOAT
  | PXFMT_RG8_UNORM | PXFMT_RG8_SNORM | PXFMT_RG16_UNORM | PXFMT_RG16_SNORM
  | PXFMT_RG32_UNORM | PXFMT_RG32_SNORM | PXFMT_RG32_FLOAT
  | PXFMT_RGB8_UNORM | PXFMT_RGB8_SNORM | PXFMT_RGB16_UNORM | PXFMT_RGB16_SNORM
  | PXFMT_RGB32_UNORM | PXFMT_RGB32_SNORM | PXFMT_RGB32_FLOAT
  | PXFMT_RGB332_UNORM | PXFMT_RGB233_UNORM | PXFMT_RGB565_UNORM | PXFMT_RGB565REV_UNORM
  | PXFMT_RGBA8_UNORM | PXFMT_RGBA8_SNORM | PXFMT_RGBA16_UNORM | PXFMT_RGBA16_SNORM
  | PXFMT_RGBA32_UNORM | PXFMT_RGBA32_SNORM | PXFMT_RGBA32_FLOAT
  | PXFMT_RGBA4_UNORM | PXFMT_RGBA4REV_UNORM | PXFMT_RGB5A1_UNORM | PXFMT_A1RGB5_UNORM
  | PXFMT_RGBA8REV_UNORM | PXFMT_RGB10A2_UNORM | PXFMT_A2RGB10_UNORM
  | PXFMT_BGRA8_UNORM | PXFMT_BGRA8_SNORM | PXFMT_BGRA16_UNORM | PXFMT_BGRA16_SNORM
  | PXFMT_BGRA32_UNORM | PXFMT_BGRA32_SNORM | PXFMT_BGRA32_FLOAT
  | PXFMT_BGRA4_UNORM | PXFMT_BGRA4REV_UNORM | PXFMT_BGR5A1_UNORM | PXFMT_A1BGR5_UNORM
  | PXFMT_BGRA8REV_UNORM | PXFMT_BGR10A2_UNORM | PXFMT_A2BGR10_UNORM
  | PXFMT_R8_UINT | PXFMT_R8_SINT | PXFMT_R16_UINT | PXFMT_R16_SINT
  | PXFMT_R32_UINT | PXFMT_R32_SINT
  | PXFMT_G8_UINT | PXFMT_G8_SINT | PXFMT_G16_UINT | PXFMT_G16_SINT
  | PXFMT_G32_UINT | PXFMT_G32_SINT
  | PXFMT_B8_UINT | PXFMT_B8_SINT | PXFMT_B16_UINT | PXFMT_B16_SINT
  | PXFMT_B32_UINT | PXFMT_B32_SINT
  | PXFMT_A8_UINT | PXFMT_A8_SINT | PXFMT_A16_UINT | PXFMT_A16_SINT
  | PXFMT_A32_UINT | PXFMT_A32_SINT
  | PXFMT_RG8_UINT | PXFMT_RG8_SINT | PXFMT_RG16_UINT | PXFMT_RG16_SINT
  | PXFMT_RG32_UINT | PXFMT_RG32_SINT
  | PXFMT_RGB8_UINT | PXFMT_RGB8_SINT | PXFMT_RGB16_UINT | PXFMT_RGB16_SINT
  | PXFMT_RGB32_UINT | PXFMT_RGB32_SINT
  | PXFMT_RGB332_UINT | PXFMT_RGB233_UINT | PXFMT_RGB565_UINT | PXFMT_RGB565REV_UINT
  | PXFMT_RGBA8_UINT | PXFMT_RGBA8_SINT | PXFMT_RGBA16_UINT | PXFMT_RGBA16_SINT
  | PXFMT_RGBA32_UINT | PXFMT_RGBA32_SINT
  | PXFMT_RGBA4_UINT | PXFMT_RGBA4REV_UINT | PXFMT_RGB5A1_UINT | PXFMT_A1RGB5_UINT
  | PXFMT_RGBA8REV_UINT | PXFMT_RGB10A2_UINT | PXFMT_A2RGB10_UINT
  | PXFMT_BGRA8_UINT | PXFMT_BGRA8_SINT | PXFMT_BGRA16_UINT | PXFMT_BGRA16_SINT
  | PXFMT_BGRA32_UINT | PXFMT_BGRA32_SINT
  | PXFMT_BGRA4_UINT | PXFMT_BGRA4REV_UINT | PXFMT_BGR5A1_UINT | PXFMT_A1BGR5_UINT
  | PXFMT_BGRA8REV_UINT | PXFMT_BGR10A2_UINT | PXFMT_A2BGR10_UINT
  | PXFMT_D8_UNORM | PXFMT_D8_SNORM | PXFMT_D16_UNORM | PXFMT_D16_SNORM
  | PXFMT_D32_UNORM | PXFMT_D32_SNORM | PXFMT_D32_FLOAT
  | PXFMT_S8_UINT | PXFMT_S8_SINT | PXFMT_S16_UINT | PXFMT_S16_SINT
  | PXFMT_S32_UINT | PXFMT_S32_SINT | PXFMT_S32_FLOAT
  | PXFMT_D24_UNORM_S8_UINT | PXFMT_D32_FLOAT_S8_UINT
  deriving DecidableEq

/-- The `pxfmt_per_fmt_info` table: one `FMT_INFO` row per format, in source
order, with the same column order as the C macro (storage type, intermediate
type, ncomps, bytes/pixel, needfp, norm, is_signed, pack, indices, bit
widths, shifts). -/
def fmt_info : pxfmt_sized_format → FmtInfo
  | .PXFMT_R8_UNORM   => mkfmt .u8  true 1 1 true true false false  0 (-1) (-1) (-1)  8 0 0 0  0 0 0 0
  | .PXFMT_R8_SNORM   => mkfmt .s8  true 1 1 true true true  false  0 (-1) (-1) (-1)  8 0 0 0  0 0 0 0
  | .PXFMT_R16_UNORM  => mkfmt .u16 true 1 2 true true false false  0 (-1) (-1) (-1)  16 0 0 0  0 0 0 0
  | .PXFMT_R16_SNORM  => mkfmt .s16 true 1 2 true true true  false  0 (-1) (-1) (-1)  16 0 0 0  0 0 0 0
  | .PXFMT_R32_UNORM  => mkfmt .u32 true 1 4 true true false false  0 (-1) (-1) (-1)  32 0 0 0  0 0 0 0
  | .PXFMT_R32_SNORM  => mkfmt .s32 true 1 4 true true true  false  0 (-1) (-1) (-1)  32 0 0 0  0 0 0 0
  | .PXFMT_R32_FLOAT  => mkfmt .f32 true 1 4 true false false false 0 (-1) (-1) (-1)  0 0 0 0  0 0 0 0
  | .PXFMT_G8_UNORM   => mkfmt .u8  true 1 1 true true false false  1 (-1) (-1) (-1)  8 0 0 0  0 0 0 0
  | .PXFMT_G8_SNORM   => mkfmt .s8  true 1 1 true true true  false  1 (-1) (-1) (-1)  8 0 0 0  0 0 0 0
  | .PXFMT_G16_UNORM  => mkfmt .u16 true 1 2 true true false false  1 (-1) (-1) (-1)  16 0 0 0  0 0 0 0
  | .PXFMT_G16_SNORM  => mkfmt .s16 true 1 2 true true true  false  1 (-1) (-1) (-1)  16 0 0 0  0 0 0 0
  | .PXFMT_G32_UNORM  => mkfmt .u32 true 1 4 true true false false  1 (-1) (-1) (-1)  32 0 0 0  0 0 0 0
  | .PXFMT_G32_SNORM  => mkfmt .s32 true 1 4 true true true  false  1 (-1) (-1) (-1)  32 0 0 0  0 0 0 0
  | .PXFMT_G32_FLOAT  => mkfmt .f32 true 1 4 true false false false 1 (-1) (-1) (-1)  0 0 0 0  0 0 0 0
  | .PXFMT_B8_UNORM   => mkfmt .u8  true 1 1 true true false false  2 (-1) (-1) (-1)  8 0 0 0  0 0 0 0
  | .PXFMT_B8_SNORM   => mkfmt .s8  true 1 1 true true true  false  2 (-1) (-1) (-1)  8 0 0 0  0 0 0 0
  | .PXFMT_B16_UNORM  => mkfmt .u16 true 1 2 true true false false  2 (-1) (-1) (-1)  16 0 0 0  0 0 0 0
  | .PXFMT_B16_SNORM  => mkfmt .s16 true 1 2 true true true  false  2 (-1) (-1) (-1)  16 0 0 0  0 0 0 0
  | .PXFMT_B32_UNORM  => mkfmt .u32 true 1 4 true true false false  2 (-1) (-1) (-1)  32 0 0 0  0 0 0 0
  | .PXFMT_B32_SNORM  => mkfmt .s32 true 1 4 true true true  false  2 (-1) (-1) (-1)  32 0 0 0  0 0 0 0
  | .PXFMT_B32_FLOAT  => mkfmt .f32 true 1 4 true false false false 2 (-1) (-1) (-1)  0 0 0 0  0 0 0 0
  | .PXFMT_A8_UNORM   => mkfmt .u8  true 1 1 true true false false  3 (-1) (-1) (-1)  8 0 0 0  0 0 0 0
  | .PXFMT_A8_SNORM   => mkfmt .s8  true 1 1 true true true  false  3 (-1) (-1) (-1)  8 0 0 0  0 0 0 0
  | .PXFMT_A16_UNORM  => mkfmt .u16 true 1 2 true true false false  3 (-1) (-1) (-1)  16 0 0 0  0 0 0 0
  | .PXFMT_A16_SNORM  => mkfmt .s16 true 1 2 true true true  false  3 (-1) (-1) (-1)  16 0 0 0  0 0 0 0
  | .PXFMT_A32_UNORM  => mkfmt .u32 true 1 4 true true false false  3 (-1) (-1) (-1)  32 0 0 0  0 0 0 0
  | .PXFMT_A32_SNORM  => mkfmt .s32 true 1 4 true true true  false  3 (-1) (-1) (-1)  32 0 0 0  0 0 0 0
  | .PXFMT_A32_FLOAT  => mkfmt .f32 true 1 4 true false false false 3 (-1) (-1) (-1)  0 0 0 0  0 0 0 0
  | .PXFMT_RG8_UNORM  => mkfmt .u8  true 2 2 true true false false  0 1 (-1) (-1)  8 8 0 0  0 0 0 0
  | .PXFMT_RG8_SNORM  => mkfmt .s8  true 2 2 true true true  false  0 1 (-1) (-1)  8 8 0 0  0 0 0 0
  | .PXFMT_RG16_UNORM => mkfmt .u16 true 2 4 true true false false  0 1 (-1) (-1)  16 16 0 0  0 0 0 0
  | .PXFMT_RG16_SNORM => mkfmt .s16 true 2 4 true true true  false  0 1 (-1) (-1)  16 16 0 0  0 0 0 0
  | .PXFMT_RG32_UNORM => mkfmt .u32 true 2 8 true true false false  0 1 (-1) (-1)  32 32 0 0  0 0 0 0
  | .PXFMT_RG32_SNORM => mkfmt .s32 true 2 8 true true true  false  0 1 (-1) (-1)  32 32 0 0  0 0 0 0
  | .PXFMT_RG32_FLOAT => mkfmt .f32 true 2 8 true false false false 0 1 (-1) (-1)  0 0 0 0  0 0 0 0
  | .PXFMT_RGB8_UNORM  => mkfmt .u8  true 3 3  true true false false  0 1 2 (-1)  8 8 8 0  0 0 0 0
  | .PXFMT_RGB8_SNORM  => mkfmt .s8  true 3 3  true true true  false  0 1 2 (-1)  8 8 8 0  0 0 0 0
  | .PXFMT_RGB16_UNORM => mkfmt .u16 true 3 6  true true false false  0 1 2 (-1)  16 16 16 0  0 0 0 0
  | .PXFMT_RGB16_SNORM => mkfmt .s16 true 3 6  true true true  false  0 1 2 (-1)  16 16 16 0  0 0 0 0
  | .PXFMT_RGB32_UNORM => mkfmt .u32 true 3 12 true true false false  0 1 2 (-1)  32 32 32 0  0 0 0 0
  | .PXFMT_RGB32_SNORM => mkfmt .s32 true 3 12 true true true  false  0 1 2 (-1)  32 32 32 0  0 0 0 0
  | .PXFMT_RGB32_FLOAT => mkfmt .f32 true 3 12 true false false false 0 1 2 (-1)  0 0 0 0  0 0 0 0
  | .PXFMT_RGB332_UNORM    => mkfmt .u8  true 3 1 true true false true  0 1 2 (-1)  3 3 2 0  5 2 0 0
  | .PXFMT_RGB233_UNORM    => mkfmt .u8  true 3 1 true true false true  0 1 2 (-1)  3 3 2 0  0 3 6 0
  | .PXFMT_RGB565_UNORM    => mkfmt .u16 true 3 2 true true false true  0 1 2 (-1)  5 6 5 0  11 5 0 0
  | .PXFMT_RGB565REV_UNORM => mkfmt .u16 true 3 2 true true false true  0 1 2 (-1)  5 6 5 0  0 5 11 0
  | .PXFMT_RGBA8_UNORM  => mkfmt .u32 true 4 4  true true false true   0 1 2 3  8 8 8 8  0 8 16 24
  | .PXFMT_RGBA8_SNORM  => mkfmt .u32 true 4 4  true true true  true   0 1 2 3  8 8 8 8  0 8 16 24
  | .PXFMT_RGBA16_UNORM => mkfmt .u16 true 4 8  true true false false  0 1 2 3  16 16 16 16  0 0 0 0
  | .PXFMT_RGBA16_SNORM => mkfmt .s16 true 4 8  true true true  false  0 1 2 3  16 16 16 16  0 0 0 0
  | .PXFMT_RGBA32_UNORM => mkfmt .u32 true 4 16 true true false false  0 1 2 3  32 32 32 32  0 0 0 0
  | .PXFMT_RGBA32_SNORM => mkfmt .s32 true 4 16 true true true  false  0 1 2 3  32 32 32 32  0 0 0 0
  | .PXFMT_RGBA32_FLOAT => mkfmt .f32 true 4 16 true false false false 0 1 2 3  0 0 0 0  0 0 0 0
  | .PXFMT_RGBA4_UNORM    => mkfmt .u16 true 4 2 true true false true  0 1 2 3  4 4 4 4  12 8 4 0
  | .PXFMT_RGBA4REV_UNORM => mkfmt .u16 true 4 2 true true false true  0 1 2 3  4 4 4 4  0 4 8 12
  | .PXFMT_RGB5A1_UNORM   => mkfmt .u16 true 4 2 true true false true  0 1 2 3  5 5 5 1  11 6 1 0
  | .PXFMT_A1RGB5_UNORM   => mkfmt .u16 true 4 2 true true false true  0 1 2 3  5 5 5 1  0 5 10 15
  | .PXFMT_RGBA8REV_UNORM => mkfmt .u32 true 4 4 true true false true  0 1 2 3  8 8 8 8  24 16 8 0
  | .PXFMT_RGB10A2_UNORM  => mkfmt .u32 true 4 4 true true false true  0 1 2 3  10 10 10 2  22 12 2 0
  | .PXFMT_A2RGB10_UNORM  => mkfmt .u32 true 4 4 true true false true  0 1 2 3  10 10 10 2  0 10 20 30
  | .PXFMT_BGRA8_UNORM  => mkfmt .u32 true 4 4  true true false true   0 1 2 3  8 8 8 8  16 8 0 24
  | .PXFMT_BGRA8_SNORM  => mkfmt .u32 true 4 4  true true true  true   0 1 2 3  8 8 8 8  16 8 0 24
  | .PXFMT_BGRA16_UNORM => mkfmt .u16 true 4 8  true true false false  2 1 0 3  16 16 16 16  0 0 0 0
  | .PXFMT_BGRA16_SNORM => mkfmt .s16 true 4 8  true true true  false  2 1 0 3  16 16 16 16  0 0 0 0
  | .PXFMT_BGRA32_UNORM => mkfmt .u32 true 4 16 true true false false  2 1 0 3  32 32 32 32  0 0 0 0
  | .PXFMT_BGRA32_SNORM => mkfmt .s32 true 4 16 true true true  false  2 1 0 3  32 32 32 32  0 0 0 0
  | .PXFMT_BGRA32_FLOAT => mkfmt .f32 true 4 16 true false false false 2 1 0 3  0 0 0 0  0 0 0 0
  | .PXFMT_BGRA4_UNORM    => mkfmt .u16 true 4 2 true true false true  0 1 2 3  4 4 4 4  4 8 12 0
  | .PXFMT_BGRA4REV_UNORM => mkfmt .u16 true 4 2 true true false true  0 1 2 3  4 4 4 4  0 12 8 4
  | .PXFMT_BGR5A1_UNORM   => mkfmt .u16 true 4 2 true true false true  0 1 2 3  5 5 5 1  1 6 11 0
  | .PXFMT_A1BGR5_UNORM   => mkfmt .u16 true 4 2 true true false true  0 1 2 3  5 5 5 1  10 5 0 15
  | .PXFMT_BGRA8REV_UNORM => mkfmt .u32 true 4 4 true true false true  0 1 2 3  8 8 8 8  24 0 8 16
  | .PXFMT_BGR10A2_UNORM  => mkfmt .u32 true 4 4 true true false true  0 1 2 3  10 10 10 2  2 12 22 0
  | .PXFMT_A2BGR10_UNORM  => mkfmt .u32 true 4 4 true true false true  0 1 2 3  10 10 10 2  20 10 0 30
  | .PXFMT_R8_UINT   => mkfmt .u8  false 1 1 false false false false  0 (-1) (-1) (-1)  8 0 0 0  0 0 0 0
  | .PXFMT_R8_SINT   => mkfmt .s8  false 1 1 false false true  false  0 (-1) (-1) (-1)  8 0 0 0  0 0 0 0
  | .PXFMT_R16_UINT  => mkfmt .u16 false 1 2 false false false false  0 (-1) (-1) (-1)  16 0 0 0  0 0 0 0
  | .PXFMT_R16_SINT  => mkfmt .s16 false 1 2 false false true  false  0 (-1) (-1) (-1)  16 0 0 0  0 0 0 0
  | .PXFMT_R32_UINT  => mkfmt .u32 false 1 4 false false false false  0 (-1) (-1) (-1)  32 0 0 0  0 0 0 0
  | .PXFMT_R32_SINT  => mkfmt .s32 false 1 4 false false true  false  0 (-1) (-1) (-1)  32 0 0 0  0 0 0 0
  | .PXFMT_G8_UINT   => mkfmt .u8  false 1 1 false false false false  1 (-1) (-1) (-1)  8 0 0 0  0 0 0 0
  | .PXFMT_G8_SINT   => mkfmt .s8  false 1 1 false false true  false  1 (-1) (-1) (-1)  8 0 0 0  0 0 0 0
  | .PXFMT_G16_UINT  => mkfmt .u16 false 1 2 false false false false  1 (-1) (-1) (-1)  16 0 0 0  0 0 0 0
  | .PXFMT_G16_SINT  => mkfmt .s16 false 1 2 false false true  false  1 (-1) (-1) (-1)  16 0 0 0  0 0 0 0
  | .PXFMT_G32_UINT  => mkfmt .u32 false 1 4 false false false false  1 (-1) (-1) (-1)  32 0 0 0  0 0 0 0
  | .PXFMT_G32_SINT  => mkfmt .s32 false 1 4 false false true  false  1 (-1) (-1) (-1)  32 0 0 0  0 0 0 0
  | .PXFMT_B8_UINT   => mkfmt .u8  false 1 1 false false false false  2 (-1) (-1) (-1)  8 0 0 0  0 0 0 0
  | .PXFMT_B8_SINT   => mkfmt .s8  false 1 1 false false true  false  2 (-1) (-1) (-1)  8 0 0 0  0 0 0 0
  | .PXFMT_B16_UINT  => mkfmt .u16 false 1 2 false false false false  2 (-1) (-1) (-1)  16 0 0 0  0 0 0 0
  | .PXFMT_B16_SINT  => mkfmt .s16 false 1 2 false false true  false  2 (-1) (-1) (-1)  16 0 0 0  0 0 0 0
  | .PXFMT_B32_UINT  => mkfmt .u32 false 1 4 false false false false  2 (-1) (-1) (-1)  32 0 0 0  0 0 0 0
  | .PXFMT_B32_SINT  => mkfmt .s32 false 1 4 false false true  false  2 (-1) (-1) (-1)  32 0 0 0  0 0 0 0
  | .PXFMT_A8_UINT   => mkfmt .u8  false 1 1 false false false false  3 (-1) (-1) (-1)  8 0 0 0  0 0 0 0
  | .PXFMT_A8_SINT   => mkfmt .s8  false 1 1 false false true  false  3 (-1) (-1) (-1)  8 0 0 0  0 0 0 0
  | .PXFMT_A16_UINT  => mkfmt .u16 false 1 2 false false false false  3 (-1) (-1) (-1)  16 0 0 0  0 0 0 0
  | .PXFMT_A16_SINT  => mkfmt .s16 false 1 2 false false true  false  3 (-1) (-1) (-1)  16 0 0 0  0 0 0 0
  | .PXFMT_A32_UINT  => mkfmt .u32 false 1 4 false false false false  3 (-1) (-1) (-1)  32 0 0 0  0 0 0 0
  | .PXFMT_A32_SINT  => mkfmt .s32 false 1 4 false false true  false  3 (-1) (-1) (-1)  32 0 0 0  0 0 0 0
  | .PXFMT_RG8_UINT  => mkfmt .u8  false 2 2 false false false false  0 1 (-1) (-1)  8 8 0 0  0 0 0 0
  | .PXFMT_RG8_SINT  => mkfmt .s8  false 2 2 false false true  false  0 1 (-1) (-1)  8 8 0 0  0 0 0 0
  | .PXFMT_RG16_UINT => mkfmt .u16 false 2 4 false false false false  0 1 (-1) (-1)  16 16 0 0  0 0 0 0
  | .PXFMT_RG16_SINT => mkfmt .s16 false 2 4 false false true  false  0 1 (-1) (-1)  16 16 0 0  0 0 0 0
  | .PXFMT_RG32_UINT => mkfmt .u32 false 2 8 false false false false  0 1 (-1) (-1)  32 32 0 0  0 0 0 0
  | .PXFMT_RG32_SINT => mkfmt .s32 false 2 8 false false true  false  0 1 (-1) (-1)  32 32 0 0  0 0 0 0
  | .PXFMT_RGB8_UINT  => mkfmt .u8  false 3 3  false false false false  0 1 2 (-1)  8 8 8 0  0 0 0 0
  | .PXFMT_RGB8_SINT  => mkfmt .s8  false 3 3  false false true  false  0 1 2 (-1)  8 8 8 0  0 0 0 0
  | .PXFMT_RGB16_UINT => mkfmt .u16 false 3 6  false false false false  0 1 2 (-1)  16 16 16 0  0 0 0 0
  | .PXFMT_RGB16_SINT => mkfmt .s16 false 3 6  false false true  false  0 1 2 (-1)  16 16 16 0  0 0 0 0
  | .PXFMT_RGB32_UINT => mkfmt .u32 false 3 12 false false false false  0 1 2 (-1)  32 32 32 0  0 0 0 0
  | .PXFMT_RGB32_SINT => mkfmt .s32 false 3 12 false false true  false  0 1 2 (-1)  32 32 32 0  0 0 0 0
  | .PXFMT_RGB332_UINT    => mkfmt .u8 false 3 1 false false false true  0 1 2 (-1)  3 3 2 0  5 2 0 0
  | .PXFMT_RGB233_UINT    => mkfmt .u8 false 3 1 false false false true  0 1 2 (-1)  3 3 2 0  0 3 6 0
  | .PXFMT_RGB565_UINT    => mkfmt .u8 false 3 2 false false false true  0 1 2 (-1)  5 6 5 0  11 5 0 0
  | .PXFMT_RGB565REV_UINT => mkfmt .u8 false 3 2 false false false true  0 1 2 (-1)  5 6 5 0  0 5 11 0
  | .PXFMT_RGBA8_UINT  => mkfmt .u32 false 4 4   false false false true   0 1 2 3  8 8 8 8  0 8 16 24
  | .PXFMT_RGBA8_SINT  => mkfmt .u32 false 4 4   false false true  true   0 1 2 3  8 8 8 8  0 8 16 24
  | .PXFMT_RGBA16_UINT => mkfmt .u16 false 4 8   false false false false  0 1 2 3  16 16 16 16  0 0 0 0
  | .PXFMT_RGBA16_SINT => mkfmt .s16 false 4 8   false false true  false  0 1 2 3  16 16 16 16  0 0 0 0
  | .PXFMT_RGBA32_UINT => mkfmt .u32 false 4 16  false false false false  0 1 2 3  32 32 32 32  0 0 0 0
  | .PXFMT_RGBA32_SINT => mkfmt .s32 false 4 16  false false true  false  0 1 2 3  32 32 32 32  0 0 0 0
  | .PXFMT_RGBA4_UINT    => mkfmt .u16 false 4 2 false false false true  0 1 2 3  4 4 4 4  12 8 4 0
  | .PXFMT_RGBA4REV_UINT => mkfmt .u16 false 4 2 false false false true  0 1 2 3  4 4 4 4  0 4 8 12
  | .PXFMT_RGB5A1_UINT   => mkfmt .u16 false 4 2 false false false true  0 1 2 3  5 5 5 1  11 6 1 0
  | .PXFMT_A1RGB5_UINT   => mkfmt .u16 false 4 2 false false false true  0 1 2 3  5 5 5 1  0 5 10 15
  | .PXFMT_RGBA8REV_UINT => mkfmt .u32 false 4 4 false false false true  0 1 2 3  8 8 8 8  24 16 8 0
  | .PXFMT_RGB10A2_UINT  => mkfmt .u32 false 4 4 false false false true  0 1 2 3  10 10 10 2  22 12 2 0
  | .PXFMT_A2RGB10_UINT  => mkfmt .u32 false 4 4 false false false true  0 1 2 3  10 10 10 2  0 10 20 30
  | .PXFMT_BGRA8_UINT  => mkfmt .u32 false 4 4   false false false true   0 1 2 3  8 8 8 8  16 8 0 24
  | .PXFMT_BGRA8_SINT  => mkfmt .u32 false 4 4   false false true  true   0 1 2 3  8 8 8 8  16 8 0 24
  | .PXFMT_BGRA16_UINT => mkfmt .u16 false 4 8   false false false false  2 1 0 3  16 16 16 16  0 0 0 0
  | .PXFMT_BGRA16_SINT => mkfmt .s16 false 4 8   false false true  false  2 1 0 3  16 16 16 16  0 0 0 0
  | .PXFMT_BGRA32_UINT => mkfmt .u32 false 4 16  false false false false  2 1 0 3  32 32 32 32  0 0 0 0
  | .PXFMT_BGRA32_SINT => mkfmt .s32 false 4 16  false false true  false  2 1 0 3  32 32 32 32  0 0 0 0
  | .PXFMT_BGRA4_UINT    => mkfmt .u16 false 4 2 false false false true  0 1 2 3  4 4 4 4  4 8 12 0
  | .PXFMT_BGRA4REV_UINT => mkfmt .u16 false 4 2 false false false true  0 1 2 3  4 4 4 4  0 12 8 4
  | .PXFMT_BGR5A1_UINT   => mkfmt .u16 false 4 2 false false false true  0 1 2 3  5 5 5 1  1 6 11 0
  | .PXFMT_A1BGR5_UINT   => mkfmt .u16 false 4 2 false false false true  0 1 2 3  5 5 5 1  10 5 0 15
  | .PXFMT_BGRA8REV_UINT => mkfmt .u32 false 4 4 false false false true  0 1 2 3  8 8 8 8  24 0 8 16
  | .PXFMT_BGR10A2_UINT  => mkfmt .u32 false 4 4 false false false true  0 1 2 3  10 10 10 2  2 12 22 0
  | .PXFMT_A2BGR10_UINT  => mkfmt .u32 false 4 4 false false false true  0 1 2 3  10 10 10 2  20 10 0 30
  | .PXFMT_D8_UNORM   => mkfmt .u8  true 1 1 true true false false  0 (-1) (-1) (-1)  8 0 0 0  0 0 0 0
  | .PXFMT_D8_SNORM   => mkfmt .s8  true 1 1 true true true  false  0 (-1) (-1) (-1)  8 0 0 0  0 0 0 0
  | .PXFMT_D16_UNORM  => mkfmt .u16 true 1 2 true true false false  0 (-1) (-1) (-1)  16 0 0 0  0 0 0 0
  | .PXFMT_D16_SNORM  => mkfmt .s16 true 1 2 true true true  false  0 (-1) (-1) (-1)  16 0 0 0  0 0 0 0
  | .PXFMT_D32_UNORM  => mkfmt .u32 true 1 4 true true false false  0 (-1) (-1) (-1)  32 0 0 0  0 0 0 0
  | .PXFMT_D32_SNORM  => mkfmt .s32 true 1 4 true true true  false  0 (-1) (-1) (-1)  32 0 0 0  0 0 0 0
  | .PXFMT_D32_FLOAT  => mkfmt .f32 true 1 4 true false false false 0 (-1) (-1) (-1)  0 0 0 0  0 0 0 0
  | .PXFMT_S8_UINT    => mkfmt .u8  false 1 1 false false false false  0 (-1) (-1) (-1)  0 0 0 0  0 0 0 0
  | .PXFMT_S8_SINT    => mkfmt .s8  false 1 1 false false true  false  0 (-1) (-1) (-1)  0 0 0 0  0 0 0 0
  | .PXFMT_S16_UINT   => mkfmt .u16 false 1 2 false false false false  0 (-1) (-1) (-1)  0 0 0 0  0 0 0 0
  | .PXFMT_S16_SINT   => mkfmt .s16 false 1 2 false false true  false  0 (-1) (-1) (-1)  0 0 0 0  0 0 0 0
  | .PXFMT_S32_UINT   => mkfmt .u32 false 1 4 false false false false  0 (-1) (-1) (-1)  0 0 0 0  0 0 0 0
  | .PXFMT_S32_SINT   => mkfmt .s32 false 1 4 false false true  false  0 (-1) (-1) (-1)  0 0 0 0  0 0 0 0
  | .PXFMT_S32_FLOAT  => mkfmt .f32 false 1 4 false false false false  0 (-1) (-1) (-1)  0 0 0 0  0 0 0 0
  | .PXFMT_D24_UNORM_S8_UINT => mkfmt .u32 true 2 4 true false false false  0 1 (-1) (-1)  24 8 0 0  0 0 0 0
  | .PXFMT_D32_FLOAT_S8_UINT => mkfmt .f32 true 2 8 true false false false  0 1 (-1) (-1)  0 8 0 0  0 0 0 0

/-- An intermediate slot value: the C code stores either a `double`
(`fp`, modelled as `ℚ`) or a `uint32` (`iv`) in each of the four
intermediate slots, according to `m_intermediate_type` (the composite
depth+stencil decode bit-puns a `uint32` into a `double` slot, which this
sum type records directly). -/
inductive imval where
  | fp (q : ℚ)
  | iv (n : Nat)
  deriving DecidableEq

/-- Read a slot as a `double`. Reading an `iv` slot as `double` is a C
bit-reinterpretation of the punned stencil bytes, which the rational model
does not represent; it yields 0 (the only case a conversion can reach is a
slot still holding the all-zero-byte default `0.0`). -/
def imval.getQ : imval → ℚ
  | .fp q => q
  | .iv _ => 0

/-- Read the low four bytes of a slot as a `uint32`
(`*(uint32 *) &slot`). For an `fp` slot this bit-reinterpretation is only
reachable on a slot holding the default `0.0` (all zero bytes), so it
yields 0. -/
def imval.getU : imval → Nat
  | .fp _ => 0
  | .iv n => n

/-- Store a `double` value into an intermediate slot of the format's
`m_intermediate_type` (`double → uint32` assignment truncates). -/
def imOfQ (fi : FmtInfo) (q : ℚ) : imval :=
  if fi.itype_fp then .fp q else .iv (castU32q q)

/-- Store a `uint32` value into an intermediate slot of the format's
`m_intermediate_type` (`uint32 → double` assignment is exact). -/
def imOfN (fi : FmtInfo) (n : Nat) : imval :=
  if fi.itype_fp then .fp (n : ℚ) else .iv n

/-- `set_intermediate_to_defaults`: the four intermediate slots are set to
`{0, 0, 0, 1}` in the format's intermediate type. -/
def set_intermediate_to_defaults (fi : FmtInfo) : Nat → imval :=
  fun k =>
    if fi.itype_fp then (if k = 3 then .fp 1 else .fp 0)
    else (if k = 3 then .iv 1 else .iv 0)

/-- `to_int_comp_packed` (value written to `dst[m_index[c]]`): cast the
packed scalar to `uint32`, extract the component with mask and shift; for
normalized formats divide by `m_max[c]` and lower-clamp signed results at
−1.0. -/
def to_int_comp_packed_val (fmt : pxfmt_sized_format) (c sv : Nat) : imval :=
  let fi := fmt_info fmt
  let raw := castU32ofStorage fi.storage.bits fi.storage.sgn sv
  if fi.is_normalized then
    let q : ℚ := (((raw &&& fi.mask c) >>> fi.sh c : Nat) : ℚ) / (fi.maxv c : ℚ)
    imOfQ fi (if fi.is_signed then cmax q (-1) else q)
  else
    imOfN fi ((raw &&& fi.mask c) >>> fi.sh c)

/-- `to_int_comp_norm_unpacked` (value written to `dst[m_index[c]]`): cast
the stored scalar to `uint32`, divide by `m_max[c]`, lower-clamp signed
results at −1.0. -/
def to_int_comp_norm_unpacked_val (fmt : pxfmt_sized_format) (c sv : Nat) : ℚ :=
  let fi := fmt_info fmt
  let raw := castU32ofStorage fi.storage.bits fi.storage.sgn sv
  let q : ℚ := (raw : ℚ) / (fi.maxv c : ℚ)
  if fi.is_signed then cmax q (-1) else q

/-- `to_int_comp_copy` (value written to `dst[m_index[c]]`): the stored
scalar value carried over with only a representational type change. -/
def to_int_comp_copy_val (fmt : pxfmt_sized_format) (c sv : Nat) : imval :=
  let fi := fmt_info fmt
  let _ := c
  if fi.storage.isF32 then
    let v := f32ToRat sv
    if fi.itype_fp then .fp v else .iv (castU32q v)
  else
    if fi.itype_fp then .fp ((toSignedInt fi.storage.bits fi.storage.sgn sv : Int) : ℚ)
    else .iv (castU32ofStorage fi.storage.bits fi.storage.sgn sv)

/-- The slot value produced for component `c` by the generic (non-composite)
decode dispatch of `to_intermediate`. -/
def to_int_comp_slot (fmt : pxfmt_sized_format) (s : Nat → Nat) (c : Nat) : imval :=
  let fi := fmt_info fmt
  if fi.is_packed then to_int_comp_packed_val fmt c (s 0)
  else if fi.is_normalized then imOfQ fi (to_int_comp_norm_unpacked_val fmt c (s c))
  else to_int_comp_copy_val fmt c (s c)

/-- One step of the per-component decode loop of `to_intermediate`:
components with `m_index[c] >= 0` overwrite their slot, others are
skipped. -/
def to_int_comp_apply (fmt : pxfmt_sized_format) (s : Nat → Nat)
    (dst : Nat → imval) (c : Nat) : Nat → imval :=
  let fi := fmt_info fmt
  if 0 ≤ fi.idx c then
    Function.update dst (fi.idx c).toNat (to_int_comp_slot fmt s c)
  else dst

/-- `to_intermediate`: decode one source pixel (given as the map from
component position to raw stored scalar pattern) into the four-slot
intermediate. Defaults are set first; the two composite depth+stencil
formats use their dedicated routines, everything else runs the generic
per-component loop. -/
def to_intermediate (fmt : pxfmt_sized_format) (src : Nat → Nat) : Nat → imval :=
  let fi := fmt_info fmt
  let s : Nat → Nat := fun c => src c % 2 ^ fi.storage.bits
  let d0 := set_intermediate_to_defaults fi
  if fmt = .PXFMT_D24_UNORM_S8_UINT then
    let v := s 0
    let depth : ℚ := (((v &&& fi.mask 0) >>> fi.sh 0 : Nat) : ℚ) / (fi.maxv 0 : ℚ)
    let stencil : Nat := (v &&& fi.mask 1) >>> fi.sh 1
    Function.update (Function.update d0 0 (.fp depth)) 1 (.iv stencil)
  else if fmt = .PXFMT_D32_FLOAT_S8_UINT then
    let d1 := Function.update d0 (fi.idx 0).toNat (to_int_comp_copy_val fmt 0 (s 0))
    Function.update d1 1 (.iv ((s 1 &&& fi.mask 1) >>> fi.sh 1))
  else
    (List.range fi.num_components).foldl (to_int_comp_apply fmt s) d0

/-- The raw scalar patterns of the pixel at byte offset `off`:
component position `c` reads `sizeof(m_formatted_type)` bytes at
`off + c * sizeof(m_formatted_type)`, little-endian. -/
def read_scalars (fmt : pxfmt_sized_format) (buf : Nat → Nat) (off : Nat) :
    Nat → Nat :=
  let fi := fmt_info fmt
  fun c => readBytesLE buf (off + c * fi.scalarBytes) fi.scalarBytes

/-- Store a `double` value into one storage scalar, as C assignment to
`m_formatted_type` does: round to `float` for float storage, truncate
toward zero and wrap modulo the scalar width for integer storage. -/
def storePattern (fi : FmtInfo) (v : ℚ) : Nat :=
  if fi.storage.isF32 then f32OfRat v
  else ((ratTrunc v) % ((2 : Int) ^ fi.storage.bits)).toNat

/-- The `c`-th OR-term of `from_int_comp_packed`:
`(((uint32) comp) << m_shift[c]) & m_mask[c]`, where `comp` is
`src[c] * m_max[c]` for normalized formats and `src[c]` otherwise, computed
in the intermediate type. -/
def from_int_packed_term (fmt : pxfmt_sized_format) (src : Nat → imval)
    (c : Nat) : Nat :=
  let fi := fmt_info fmt
  let r : Nat :=
    if fi.itype_fp then
      castU32q (if fi.is_normalized then (src c).getQ * (fi.maxv c : ℚ) else (src c).getQ)
    else
      if fi.is_normalized then ((src c).getU * fi.maxv c) % 4294967296 else (src c).getU
  ((r <<< fi.sh c) % 4294967296) &&& fi.mask c

/-- `from_int_comp_packed`: the single scalar value
`*dst = t0 | t1 | t2 | t3` built from the four components' shifted and
masked contributions. -/
def from_int_comp_packed_val (fmt : pxfmt_sized_format) (src : Nat → imval) : Nat :=
  from_int_packed_term fmt src 0 ||| from_int_packed_term fmt src 1 |||
  from_int_packed_term fmt src 2 ||| from_int_packed_term fmt src 3

/-- `from_int_comp_norm_unpacked`: the stored pattern of
`dst[c] = (Tint)((double) src[m_index[c]] * (double) m_max[c])`. -/
def from_int_comp_norm_unpacked_pat (fmt : pxfmt_sized_format)
    (src : Nat → imval) (c : Nat) : Nat :=
  let fi := fmt_info fmt
  let q : ℚ :=
    (if fi.itype_fp then (src (fi.idx c).toNat).getQ
     else ((src (fi.idx c).toNat).getU : ℚ)) * (fi.maxv c : ℚ)
  let v : ℚ := if fi.itype_fp then q else (castU32q q : ℚ)
  storePattern fi v

/-- `from_int_comp_copy`: the stored pattern of
`dst[c] = (Tint) src[m_index[c]]`. -/
def from_int_comp_copy_pat (fmt : pxfmt_sized_format)
    (src : Nat → imval) (c : Nat) : Nat :=
  let fi := fmt_info fmt
  let v : ℚ :=
    if fi.itype_fp then (src (fi.idx c).toNat).getQ
    else ((src (fi.idx c).toNat).getU : ℚ)
  storePattern fi v

/-- `from_intermediate`: encode the four-slot intermediate into the
destination pixel's bytes at offset `off`. The two composite depth+stencil
formats use their dedicated combine routines; packed formats write one
scalar; unpacked formats write each present component's own scalar. -/
def from_intermediate_write (fmt : pxfmt_sized_format) (buf : Nat → Nat)
    (off : Nat) (src : Nat → imval) : Nat → Nat :=
  let fi := fmt_info fmt
  if fmt = .PXFMT_D24_UNORM_S8_UINT then
    let depth_double : ℚ := (src 0).getQ * (fi.maxv 0 : ℚ)
    let depth_u32 : Nat := ((castU32q depth_double <<< fi.sh 0) % 4294967296) &&& fi.mask 0
    let stencil : Nat := (((src 1).getU <<< fi.sh 1) % 4294967296) &&& fi.mask 1
    writeBytesLE buf off 4 (depth_u32 ||| stencil)
  else if fmt = .PXFMT_D32_FLOAT_S8_UINT then
    let b0 := from_int_comp_copy_pat fmt src 0
    let stencil : Nat := (((src 1).getU <<< fi.sh 1) % 4294967296) &&& fi.mask 1
    writeBytesLE (writeBytesLE buf off fi.scalarBytes b0) (off + 4) 4 stencil
  else if fi.is_packed then
    writeBytesLE buf off fi.scalarBytes (from_int_comp_packed_val fmt src)
  else
    (List.range fi.num_components).foldl (fun b c =>
      if 0 ≤ fi.idx c then
        writeBytesLE b (off + c * fi.scalarBytes) fi.scalarBytes
          (if fi.is_normalized then from_int_comp_norm_unpacked_pat fmt src c
           else from_int_comp_copy_pat fmt src c)
      else b) buf

/-- `get_pxfmt_info`: the per-pixel stride is `m_bytes_per_pixel`. -/
def get_pixel_stride (fmt : pxfmt_sized_format) : Nat :=
  (fmt_info fmt).bytes_per_pixel

/-- `get_pxfmt_info`: the per-row stride is
`((pixel_stride * width) + 3) & 0xFFFFFFFC`, computed in `uint32`. -/
def get_row_stride (fmt : pxfmt_sized_format) (width : Nat) : Nat :=
  (((get_pixel_stride fmt * width) % 4294967296 + 3) % 4294967296) &&& 4294967292

/-- The identity of a failed `assert` in `pxfmt_convert_pixels`, in the
order the asserts appear in the source; with assertions enabled a failure
aborts before the pixel loop runs. -/
inductive pxfmt_convert_error where
  | assert_src_pixel_stride
  | assert_src_row_stride
  | assert_dst_pixel_stride
  | assert_dst_row_stride
  | intermediate_mismatch
  deriving DecidableEq

/-- `pxfmt_convert_pixels`: convert a `width × height` block from
`src_fmt` to `dst_fmt`. Strides are computed first and the five asserts
checked in source order; then the double loop decodes each source pixel
into the intermediate and immediately encodes it to the destination,
advancing by the pixel strides within a row and by the row strides between
rows. NOTE (faithful to the source): the inner loop counter `x` is compared
against `height`, not `width`. Returns the failed assertion (if any)
together with the resulting destination buffer. -/
def pxfmt_convert_pixels (pDst pSrc : Nat → Nat) (width height : Nat)
    (src_fmt dst_fmt : pxfmt_sized_format) :
    Option pxfmt_convert_error × (Nat → Nat) :=
  let sps := get_pixel_stride src_fmt
  let srs := get_row_stride src_fmt width
  let dps := get_pixel_stride dst_fmt
  let drs := get_row_stride dst_fmt width
  if ¬ 0 < sps then (some .assert_src_pixel_stride, pDst)
  else if ¬ 0 < srs then (some .assert_src_row_stride, pDst)
  else if ¬ 0 < dps then (some .assert_dst_pixel_stride, pDst)
  else if ¬ 0 < drs then (some .assert_dst_row_stride, pDst)
  else if ¬ (fmt_info src_fmt).needs_fp = (fmt_info dst_fmt).needs_fp then
    (some .intermediate_mismatch, pDst)
  else
    (none,
      (List.range height).foldl (fun dbuf y =>
        (List.range height).foldl (fun dbuf2 x =>
          from_intermediate_write dst_fmt dbuf2 (y * drs + x * dps)
            (to_intermediate src_fmt
              (read_scalars src_fmt pSrc (y * srs + x * sps)))) dbuf) pDst)

/-! GLenum constants used by `validate_format_type_combo`, with their
standard OpenGL values. -/

def GL_STENCIL_INDEX : Nat := 0x1901
def GL_DEPTH_COMPONENT : Nat := 0x1902
def GL_RED : Nat := 0x1903
def GL_GREEN : Nat := 0x1904
def GL_BLUE : Nat := 0x1905
def GL_ALPHA : Nat := 0x1906
def GL_RGB : Nat := 0x1907
def GL_RGBA : Nat := 0x1908
def GL_BGRA : Nat := 0x80E1
def GL_RG : Nat := 0x8227
def GL_RG_INTEGER : Nat := 0x8228
def GL_DEPTH_STENCIL : Nat := 0x84F9
def GL_RED_INTEGER : Nat := 0x8D94
def GL_GREEN_INTEGER : Nat := 0x8D95
def GL_BLUE_INTEGER : Nat := 0x8D96
def GL_ALPHA_INTEGER : Nat := 0x8D97
def GL_RGB_INTEGER : Nat := 0x8D98
def GL_RGBA_INTEGER : Nat := 0x8D99
def GL_BGRA_INTEGER : Nat := 0x8D9B

def GL_BYTE : Nat := 0x1400
def GL_UNSIGNED_BYTE : Nat := 0x1401
def GL_SHORT : Nat := 0x1402
def GL_UNSIGNED_SHORT : Nat := 0x1403
def GL_INT : Nat := 0x1404
def GL_UNSIGNED_INT : Nat := 0x1405
def GL_FLOAT : Nat := 0x1406
def GL_UNSIGNED_BYTE_3_3_2 : Nat := 0x8032
def GL_UNSIGNED_SHORT_4_4_4_4 : Nat := 0x8033
def GL_UNSIGNED_SHORT_5_5_5_1 : Nat := 0x8034
def GL_UNSIGNED_INT_8_8_8_8 : Nat := 0x8035
def GL_UNSIGNED_INT_10_10_10_2 : Nat := 0x8036
def GL_UNSIGNED_BYTE_2_3_3_REV : Nat := 0x8362
def GL_UNSIGNED_SHORT_5_6_5 : Nat := 0x8363
def GL_UNSIGNED_SHORT_5_6_5_REV : Nat := 0x8364
def GL_UNSIGNED_SHORT_4_4_4_4_REV : Nat := 0x8365
def GL_UNSIGNED_SHORT_1_5_5_5_REV : Nat := 0x8366
def GL_UNSIGNED_INT_8_8_8_8_REV : Nat := 0x8367
def GL_UNSIGNED_INT_2_10_10_10_REV : Nat := 0x8368
def GL_UNSIGNED_INT_24_8 : Nat := 0x84FA
def GL_FLOAT_32_UNSIGNED_INT_24_8_REV : Nat := 0x8DAD

/-- Inner `switch (type)` of `validate_format_type_combo` for `GL_RED`. -/
def vtc_red (t : Nat) : Option pxfmt_sized_format :=
  if t = GL_UNSIGNED_BYTE then some .PXFMT_R8_UNORM
  else if t = GL_BYTE then some .PXFMT_R8_SNORM
  else if t = GL_UNSIGNED_SHORT then some .PXFMT_R16_UNORM
  else if t = GL_SHORT then some .PXFMT_R16_SNORM
  else if t = GL_UNSIGNED_INT then some .PXFMT_R32_UNORM
  else if t = GL_INT then some .PXFMT_R32_SNORM
  else if t = GL_FLOAT then some .PXFMT_R32_FLOAT
  else none

/-- Inner `switch (type)` for `GL_GREEN`. -/
def vtc_green (t : Nat) : Option pxfmt_sized_format :=
  if t = GL_UNSIGNED_BYTE then some .PXFMT_G8_UNORM
  else if t = GL_BYTE then some .PXFMT_G8_SNORM
  else if t = GL_UNSIGNED_SHORT then some .PXFMT_G16_UNORM
  else if t = GL_SHORT then some .PXFMT_G16_SNORM
  else if t = GL_UNSIGNED_INT then some .PXFMT_G32_UNORM
  else if t = GL_INT then some .PXFMT_G32_SNORM
  else if t = GL_FLOAT then some .PXFMT_G32_FLOAT
  else none

/-- Inner `switch (type)` for `GL_BLUE`. -/
def vtc_blue (t : Nat) : Option pxfmt_sized_format :=
  if t = GL_UNSIGNED_BYTE then some .PXFMT_B8_UNORM
  else if t = GL_BYTE then some .PXFMT_B8_SNORM
  else if t = GL_UNSIGNED_SHORT then some .PXFMT_B16_UNORM
  else if t = GL_SHORT then some .PXFMT_B16_SNORM
  else if t = GL_UNSIGNED_INT then some .PXFMT_B32_UNORM
  else if t = GL_INT then some .PXFMT_B32_SNORM
  else if t = GL_FLOAT then some .PXFMT_B32_FLOAT
  else none

/-- Inner `switch (type)` for `GL_ALPHA`. -/
def vtc_alpha (t : Nat) : Option pxfmt_sized_format :=
  if t = GL_UNSIGNED_BYTE then some .PXFMT_A8_UNORM
  else if t = GL_BYTE then some .PXFMT_A8_SNORM
  else if t = GL_UNSIGNED_SHORT then some .PXFMT_A16_UNORM
  else if t = GL_SHORT then some .PXFMT_A16_SNORM
  else if t = GL_UNSIGNED_INT then some .PXFMT_A32_UNORM
  else if t = GL_INT then some .PXFMT_A32_SNORM
  else if t = GL_FLOAT then some .PXFMT_A32_FLOAT
  else none

/-- Inner `switch (type)` for `GL_RG`. -/
def vtc_rg (t : Nat) : Option pxfmt_sized_format :=
  if t = GL_UNSIGNED_BYTE then some .PXFMT_RG8_UNORM
  else if t = GL_BYTE then some .PXFMT_RG8_SNORM
  else if t = GL_UNSIGNED_SHORT then some .PXFMT_RG16_UNORM
  else if t = GL_SHORT then some .PXFMT_RG16_SNORM
  else if t = GL_UNSIGNED_INT then some .PXFMT_RG32_UNORM
  else if t = GL_INT then some .PXFMT_RG32_SNORM
  else if t = GL_FLOAT then some .PXFMT_RG32_FLOAT
  else none

/-- Inner `switch (type)` for `GL_RGB`. -/
def vtc_rgb (t : Nat) : Option pxfmt_sized_format :=
  if t = GL_UNSIGNED_BYTE then some .PXFMT_RGB8_UNORM
  else if t = GL_BYTE then some .PXFMT_RGB8_SNORM
  else if t = GL_UNSIGNED_SHORT then some .PXFMT_RGB16_UNORM
  else if t = GL_SHORT then some .PXFMT_RGB16_SNORM
  else if t = GL_UNSIGNED_INT then some .PXFMT_RGB32_UNORM
  else if t = GL_INT then some .PXFMT_RGB32_SNORM
  else if t = GL_FLOAT then some .PXFMT_RGB32_FLOAT
  else if t = GL_UNSIGNED_BYTE_3_3_2 then some .PXFMT_RGB332_UNORM
  else if t = GL_UNSIGNED_BYTE_2_3_3_REV then some .PXFMT_RGB233_UNORM
  else if t = GL_UNSIGNED_SHORT_5_6_5 then some .PXFMT_RGB565_UNORM
  else if t = GL_UNSIGNED_SHORT_5_6_5_REV then some .PXFMT_RGB565REV_UNORM
  else none

/-- Inner `switch (type)` for `GL_RGBA`. -/
def vtc_rgba (t : Nat) : Option pxfmt_sized_format :=
  if t = GL_UNSIGNED_BYTE then some .PXFMT_RGBA8_UNORM
  else if t = GL_BYTE then some .PXFMT_RGBA8_SNORM
  else if t = GL_UNSIGNED_SHORT then some .PXFMT_RGBA16_UNORM
  else if t = GL_SHORT then some .PXFMT_RGBA16_SNORM
  else if t = GL_UNSIGNED_INT then some .PXFMT_RGBA32_UNORM
  else if t = GL_INT then some .PXFMT_RGBA32_SNORM
  else if t = GL_FLOAT then some .PXFMT_RGBA32_FLOAT
  else if t = GL_UNSIGNED_SHORT_4_4_4_4 then some .PXFMT_RGBA4_UNORM
  else if t = GL_UNSIGNED_SHORT_4_4_4_4_REV then some .PXFMT_RGBA4REV_UNORM
  else if t = GL_UNSIGNED_SHORT_5_5_5_1 then some .PXFMT_RGB5A1_UNORM
  else if t = GL_UNSIGNED_SHORT_1_5_5_5_REV then some .PXFMT_A1RGB5_UNORM
  else if t = GL_UNSIGNED_INT_8_8_8_8 then some .PXFMT_RGBA8_UNORM
  else if t = GL_UNSIGNED_INT_8_8_8_8_REV then some .PXFMT_RGBA8REV_UNORM
  else if t = GL_UNSIGNED_INT_10_10_10_2 then some .PXFMT_RGB10A2_UNORM
  else if t = GL_UNSIGNED_INT_2_10_10_10_REV then some .PXFMT_A2RGB10_UNORM
  else none

/-- Inner `switch (type)` for `GL_BGRA`. -/
def vtc_bgra (t : Nat) : Option pxfmt_sized_format :=
  if t = GL_UNSIGNED_BYTE then some .PXFMT_BGRA8_UNORM
  else if t = GL_BYTE then some .PXFMT_BGRA8_SNORM
  else if t = GL_UNSIGNED_SHORT then some .PXFMT_BGRA16_UNORM
  else if t = GL_SHORT then some .PXFMT_BGRA16_SNORM
  else if t = GL_UNSIGNED_INT then some .PXFMT_BGRA32_UNORM
  else if t = GL_INT then some .PXFMT_BGRA32_SNORM
  else if t = GL_FLOAT then some .PXFMT_BGRA32_FLOAT
  else if t = GL_UNSIGNED_SHORT_4_4_4_4 then some .PXFMT_BGRA4_UNORM
  else if t = GL_UNSIGNED_SHORT_4_4_4_4_REV then some .PXFMT_BGRA4REV_UNORM
  else if t = GL_UNSIGNED_SHORT_5_5_5_1 then some .PXFMT_BGR5A1_UNORM
  else if t = GL_UNSIGNED_SHORT_1_5_5_5_REV then some .PXFMT_A1BGR5_UNORM
  else if t = GL_UNSIGNED_INT_8_8_8_8 then some .PXFMT_BGRA8_UNORM
  else if t = GL_UNSIGNED_INT_8_8_8_8_REV then some .PXFMT_BGRA8REV_UNORM
  else if t = GL_UNSIGNED_INT_10_10_10_2 then some .PXFMT_BGR10A2_UNORM
  else if t = GL_UNSIGNED_INT_2_10_10_10_REV then some .PXFMT_A2BGR10_UNORM
  else none

/-- Inner `switch (type)` for `GL_RED_INTEGER`. -/
def vtc_red_integer (t : Nat) : Option pxfmt_sized_format :=
  if t = GL_UNSIGNED_BYTE then some .PXFMT_R8_UINT
  else if t = GL_BYTE then some .PXFMT_R8_SINT
  else if t = GL_UNSIGNED_SHORT then some .PXFMT_R16_UINT
  else if t = GL_SHORT then some .PXFMT_R16_SINT
  else if t = GL_UNSIGNED_INT then some .PXFMT_R32_UINT
  else if t = GL_INT then some .PXFMT_R32_SINT
  else none

/-- Inner `switch (type)` for `GL_GREEN_INTEGER`. -/
def vtc_green_integer (t : Nat) : Option pxfmt_sized_format :=
  if t = GL_UNSIGNED_BYTE then some .PXFMT_G8_UINT
  else if t = GL_BYTE then some .PXFMT_G8_SINT
  else if t = GL_UNSIGNED_SHORT then some .PXFMT_G16_UINT
  else if t = GL_SHORT then some .PXFMT_G16_SINT
  else if t = GL_UNSIGNED_INT then some .PXFMT_G32_UINT
  else if t = GL_INT then some .PXFMT_G32_SINT
  else none

/-- Inner `switch (type)` for `GL_BLUE_INTEGER`. -/
def vtc_blue_integer (t : Nat) : Option pxfmt_sized_format :=
  if t = GL_UNSIGNED_BYTE then some .PXFMT_B8_UINT
  else if t = GL_BYTE then some .PXFMT_B8_SINT
  else if t = GL_UNSIGNED_SHORT then some .PXFMT_B16_UINT
  else if t = GL_SHORT then some .PXFMT_B16_SINT
  else if t = GL_UNSIGNED_INT then some .PXFMT_B32_UINT
  else if t = GL_INT then some .PXFMT_B32_SINT
  else none

/-- Inner `switch (type)` for `GL_ALPHA_INTEGER`. -/
def vtc_alpha_integer (t : Nat) : Option pxfmt_sized_format :=
  if t = GL_UNSIGNED_BYTE then some .PXFMT_A8_UINT
  else if t = GL_BYTE then some .PXFMT_A8_SINT
  else if t = GL_UNSIGNED_SHORT then some .PXFMT_A16_UINT
  else if t = GL_SHORT then some .PXFMT_A16_SINT
  else if t = GL_UNSIGNED_INT then some .PXFMT_A32_UINT
  else if t = GL_INT then some .PXFMT_A32_SINT
  else none

/-- Inner `switch (type)` for `GL_RG_INTEGER`. -/
def vtc_rg_integer (t : Nat) : Option pxfmt_sized_format :=
  if t = GL_UNSIGNED_BYTE then some .PXFMT_RG8_UINT
  else if t = GL_BYTE then some .PXFMT_RG8_SINT
  else if t = GL_UNSIGNED_SHORT then some .PXFMT_RG16_UINT
  else if t = GL_SHORT then some .PXFMT_RG16_SINT
  else if t = GL_UNSIGNED_INT then some .PXFMT_RG32_UINT
  else if t = GL_INT then some .PXFMT_RG32_SINT
  else none

/-- Inner `switch (type)` for `GL_RGB_INTEGER`. -/
def vtc_rgb_integer (t : Nat) : Option pxfmt_sized_format :=
  if t = GL_UNSIGNED_BYTE then some .PXFMT_RGB8_UINT
  else if t = GL_BYTE then some .PXFMT_RGB8_SINT
  else if t = GL_UNSIGNED_SHORT then some .PXFMT_RGB16_UINT
  else if t = GL_SHORT then some .PXFMT_RGB16_SINT
  else if t = GL_UNSIGNED_INT then some .PXFMT_RGB32_UINT
  else if t = GL_INT then some .PXFMT_RGB32_SINT
  else if t = GL_UNSIGNED_BYTE_3_3_2 then some .PXFMT_RGB332_UINT
  else if t = GL_UNSIGNED_BYTE_2_3_3_REV then some .PXFMT_RGB233_UINT
  else if t = GL_UNSIGNED_SHORT_5_6_5 then some .PXFMT_RGB565_UINT
  else if t = GL_UNSIGNED_SHORT_5_6_5_REV then some .PXFMT_RGB565REV_UINT
  else none

/-- Inner `switch (type)` for `GL_BGRA_INTEGER`. -/
def vtc_bgra_integer (t : Nat) : Option pxfmt_sized_format :=
  if t = GL_UNSIGNED_BYTE then some .PXFMT_BGRA8_UINT
  else if t = GL_BYTE then some .PXFMT_BGRA8_SINT
  else if t = GL_UNSIGNED_SHORT then some .PXFMT_BGRA16_UINT
  else if t = GL_SHORT then some .PXFMT_BGRA16_SINT
  else if t = GL_UNSIGNED_INT then some .PXFMT_BGRA32_UINT
  else if t = GL_INT then some .PXFMT_BGRA32_SINT
  else if t = GL_UNSIGNED_SHORT_4_4_4_4 then some .PXFMT_BGRA4_UINT
  else if t = GL_UNSIGNED_SHORT_4_4_4_4_REV then some .PXFMT_BGRA4REV_UINT
  else if t = GL_UNSIGNED_SHORT_5_5_5_1 then some .PXFMT_BGR5A1_UINT
  else if t = GL_UNSIGNED_SHORT_1_5_5_5_REV then some .PXFMT_A1BGR5_UINT
  else if t = GL_UNSIGNED_INT_8_8_8_8 then some .PXFMT_BGRA8_UINT
  else if t = GL_UNSIGNED_INT_8_8_8_8_REV then some .PXFMT_BGRA8REV_UINT
  else if t = GL_UNSIGNED_INT_10_10_10_2 then some .PXFMT_BGR10A2_UINT
  else if t = GL_UNSIGNED_INT_2_10_10_10_REV then some .PXFMT_A2BGR10_UINT
  else none

/-- Inner `switch (type)` for `GL_RGBA_INTEGER`. The `case
GL_RGBA_INTEGER` of the source has no `break` after its inner switch, so
an unmatched type falls through into the `GL_BGRA_INTEGER` switch; the
final else models that fall-through. -/
def vtc_rgba_integer (t : Nat) : Option pxfmt_sized_format :=
  if t = GL_UNSIGNED_BYTE then some .PXFMT_RGBA8_UINT
  else if t = GL_BYTE then some .PXFMT_RGBA8_SINT
  else if t = GL_UNSIGNED_SHORT then some .PXFMT_RGBA16_UINT
  else if t = GL_SHORT then some .PXFMT_RGBA16_SINT
  else if t = GL_UNSIGNED_INT then some .PXFMT_RGBA32_UINT
  else if t = GL_INT then some .PXFMT_RGBA32_SINT
  else if t = GL_UNSIGNED_SHORT_4_4_4_4 then some .PXFMT_RGBA4_UINT
  else if t = GL_UNSIGNED_SHORT_4_4_4_4_REV then some .PXFMT_RGBA4REV_UINT
  else if t = GL_UNSIGNED_SHORT_5_5_5_1 then some .PXFMT_RGB5A1_UINT
  else if t = GL_UNSIGNED_SHORT_1_5_5_5_REV then some .PXFMT_A1RGB5_UINT
  else if t = GL_UNSIGNED_INT_8_8_8_8 then some .PXFMT_RGBA8_UINT
  else if t = GL_UNSIGNED_INT_8_8_8_8_REV then some .PXFMT_RGBA8REV_UINT
  else if t = GL_UNSIGNED_INT_10_10_10_2 then some .PXFMT_RGB10A2_UINT
  else if t = GL_UNSIGNED_INT_2_10_10_10_REV then some .PXFMT_A2RGB10_UINT
  else vtc_bgra_integer t

/-- Inner `switch (type)` for `GL_DEPTH_COMPONENT`. -/
def vtc_depth (t : Nat) : Option pxfmt_sized_format :=
  if t = GL_UNSIGNED_BYTE then some .PXFMT_D8_UNORM
  else if t = GL_BYTE then some .PXFMT_D8_SNORM
  else if t = GL_UNSIGNED_SHORT then some .PXFMT_D16_UNORM
  else if t = GL_SHORT then some .PXFMT_D16_SNORM
  else if t = GL_UNSIGNED_INT then some .PXFMT_D32_UNORM
  else if t = GL_INT then some .PXFMT_D32_SNORM
  else if t = GL_FLOAT then some .PXFMT_D32_FLOAT
  else none

/-- Inner `switch (type)` for `GL_STENCIL_INDEX`. -/
def vtc_stencil (t : Nat) : Option pxfmt_sized_format :=
  if t = GL_UNSIGNED_BYTE then some .PXFMT_S8_UINT
  else if t = GL_BYTE then some .PXFMT_S8_SINT
  else if t = GL_UNSIGNED_SHORT then some .PXFMT_S16_UINT
  else if t = GL_SHORT then some .PXFMT_S16_SINT
  else if t = GL_UNSIGNED_INT then some .PXFMT_S32_UINT
  else if t = GL_INT then some .PXFMT_S32_SINT
  else if t = GL_FLOAT then some .PXFMT_S32_FLOAT
  else none

/-- Inner `switch (type)` for `GL_DEPTH_STENCIL`. -/
def vtc_depth_stencil (t : Nat) : Option pxfmt_sized_format :=
  if t = GL_UNSIGNED_INT_24_8 then some .PXFMT_D24_UNORM_S8_UINT
  else if t = GL_FLOAT_32_UNSIGNED_INT_24_8_REV then some .PXFMT_D32_FLOAT_S8_UINT
  else none

/-- `validate_format_type_combo`: map an OpenGL (format, type) pair to a
`pxfmt_sized_format`; unsupported combinations give `none`
(`PXFMT_INVALID`). Total and deterministic by construction. -/
def validate_format_type_combo (format t : Nat) : Option pxfmt_sized_format :=
  if format = GL_RED then vtc_red t
  else if format = GL_GREEN then vtc_green t
  else if format = GL_BLUE then vtc_blue t
  else if format = GL_ALPHA then vtc_alpha t
  else if format = GL_RG then vtc_rg t
  else if format = GL_RGB then vtc_rgb t
  else if format = GL_RGBA then vtc_rgba t
  else if format = GL_BGRA then vtc_bgra t
  else if format = GL_RED_INTEGER then vtc_red_integer t
  else if format = GL_GREEN_INTEGER then vtc_green_integer t
  else if format = GL_BLUE_INTEGER then vtc_blue_integer t
  else if format = GL_ALPHA_INTEGER then vtc_alpha_integer t
  else if format = GL_RG_INTEGER then vtc_rg_integer t
  else if format = GL_RGB_INTEGER then vtc_rgb_integer t
  else if format = GL_RGBA_INTEGER then vtc_rgba_integer t
  else if format = GL_BGRA_INTEGER then vtc_bgra_integer t
  else if format = GL_DEPTH_COMPONENT then vtc_depth t
  else if format = GL_STENCIL_INDEX then vtc_stencil t
  else if format = GL_DEPTH_STENCIL then vtc_depth_stencil t
  else none

/-- The seven scalar datatypes accepted by the non-integer color formats,
depth and stencil. -/
def vtcScalar7 : List Nat :=
  [GL_UNSIGNED_BYTE, GL_BYTE, GL_UNSIGNED_SHORT, GL_SHORT,
   GL_UNSIGNED_INT, GL_INT, GL_FLOAT]

/-- The six scalar datatypes accepted by the integer formats. -/
def vtcScalar6 : List Nat :=
  [GL_UNSIGNED_BYTE, GL_BYTE, GL_UNSIGNED_SHORT, GL_SHORT,
   GL_UNSIGNED_INT, GL_INT]

/-- The packed datatypes accepted by three-channel RGB layouts. -/
def vtcPackedRGB : List Nat :=
  [GL_UNSIGNED_BYTE_3_3_2, GL_UNSIGNED_BYTE_2_3_3_REV,
   GL_UNSIGNED_SHORT_5_6_5, GL_UNSIGNED_SHORT_5_6_5_REV]

/-- The packed datatypes accepted by four-channel RGBA/BGRA layouts. -/
def vtcPacked4 : List Nat :=
  [GL_UNSIGNED_SHORT_4_4_4_4, GL_UNSIGNED_SHORT_4_4_4_4_REV,
   GL_UNSIGNED_SHORT_5_5_5_1, GL_UNSIGNED_SHORT_1_5_5_5_REV,
   GL_UNSIGNED_INT_8_8_8_8, GL_UNSIGNED_INT_8_8_8_8_REV,
   GL_UNSIGNED_INT_10_10_10_2, GL_UNSIGNED_INT_2_10_10_10_REV]

/-- The supported cross-product of (format, type) pairs: exactly those
pairs for which `validate_format_type_combo` returns a format id. -/
def supportedPairs : List (Nat × Nat) :=
  (vtcScalar7.map (fun t => (GL_RED, t))) ++
  (vtcScalar7.map (fun t => (GL_GREEN, t))) ++
  (vtcScalar7.map (fun t => (GL_BLUE, t))) ++
  (vtcScalar7.map (fun t => (GL_ALPHA, t))) ++
  (vtcScalar7.map (fun t => (GL_RG, t))) ++
  ((vtcScalar7 ++ vtcPackedRGB).map (fun t => (GL_RGB, t))) ++
  ((vtcScalar7 ++ vtcPacked4).map (fun t => (GL_RGBA, t))) ++
  ((vtcScalar7 ++ vtcPacked4).map (fun t => (GL_BGRA, t))) ++
  (vtcScalar6.map (fun t => (GL_RED_INTEGER, t))) ++
  (vtcScalar6.map (fun t => (GL_GREEN_INTEGER, t))) ++
  (vtcScalar6.map (fun t => (GL_BLUE_INTEGER, t))) ++
  (vtcScalar6.map (fun t => (GL_ALPHA_INTEGER, t))) ++
  (vtcScalar6.map (fun t => (GL_RG_INTEGER, t))) ++
  ((vtcScalar6 ++ vtcPackedRGB).map (fun t => (GL_RGB_INTEGER, t))) ++
  ((vtcScalar6 ++ vtcPacked4).map (fun t => (GL_RGBA_INTEGER, t))) ++
  ((vtcScalar6 ++ vtcPacked4).map (fun t => (GL_BGRA_INTEGER, t))) ++
  (vtcScalar7.map (fun t => (GL_DEPTH_COMPONENT, t))) ++
  (vtcScalar7.map (fun t => (GL_STENCIL_INDEX, t))) ++
  [(GL_DEPTH_STENCIL, GL_UNSIGNED_INT_24_8),
   (GL_DEPTH_STENCIL, GL_FLOAT_32_UNSIGNED_INT_24_8_REV)]

/-- Membership bridge: a datatype accepted for `GL_RED` gives a pair in
`supportedPairs`. -/
theorem sup_mem_red (t : Nat) (ht : t ∈ vtcScalar7) :
    (GL_RED, t) ∈ supportedPairs := by
  unfold supportedPairs
  exact List.mem_append_left _ (List.mem_append_left _ (List.mem_append_left _ (List.mem_append_left _ (List.mem_append_left _ (List.mem_append_left _ (List.mem_append_left _ (List.mem_append_left _ (List.mem_append_left _ (List.mem_append_left _ (List.mem_append_left _ (List.mem_append_left _ (List.mem_append_left _ (List.mem_append_left _ (List.mem_append_left _ (List.mem_append_left _ (List.mem_append_left _ (List.mem_append_left _ (List.mem_map_of_mem _ ht))))))))))))))))))

/-- Membership bridge: a datatype accepted for `GL_GREEN` gives a pair in
`supportedPairs`. -/
theorem sup_mem_green (t : Nat) (ht : t ∈ vtcScalar7) :
    (GL_GREEN, t) ∈ supportedPairs := by
  unfold supportedPairs
  exact List.mem_append_left _ (List.mem_append_left _ (List.mem_append_left _ (List.mem_append_left _ (List.mem_append_left _ (List.mem_append_left _ (List.mem_append_left _ (List.mem_append_left _ (List.mem_append_left _ (List.mem_append_left _ (List.mem_append_left _ (List.mem_append_left _ (List.mem_append_left _ (List.mem_append_left _ (List.mem_append_left _ (List.mem_append_left _ (List.mem_append_left _ (List.mem_append_right _ (List.mem_map_of_mem _ ht))))))))))))))))))

/-- Membership bridge: a datatype accepted for `GL_BLUE` gives a pair in
`supportedPairs`. -/
theorem sup_mem_blue (t : Nat) (ht : t ∈ vtcScalar7) :
    (GL_BLUE, t) ∈ supportedPairs := by
  unfold supportedPairs
  exact List.mem_append_left _ (List.mem_append_left _ (List.mem_append_left _ (List.mem_append_left _ (List.mem_append_left _ (List.mem_append_left _ (List.mem_append_left _ (List.mem_append_left _ (List.mem_append_left _ (List.mem_append_left _ (List.mem_append_left _ (List.mem_append_left _ (List.mem_append_left _ (List.mem_append_left _ (List.mem_append_left _ (List.mem_append_left _ (List.mem_append_right _ (List.mem_map_of_mem _ ht)))))))))))))))))

/-- Membership bridge: a datatype accepted for `GL_ALPHA` gives a pair in
`supportedPairs`. -/
theorem sup_mem_alpha (t : Nat) (ht : t ∈ vtcScalar7) :
    (GL_ALPHA, t) ∈ supportedPairs := by
  unfold supportedPairs
  exact List.mem_append_left _ (List.mem_append_left _ (List.mem_append_left _ (List.mem_append_left _ (List.mem_append_left _ (List.mem_append_left _ (List.mem_append_left _ (List.mem_append_left _ (List.mem_append_left _ (List.mem_append_left _ (List.mem_append_left _ (List.mem_append_left _ (List.mem_append_left _ (List.mem_append_left _ (List.mem_append_left _ (List.mem_append_right _ (List.mem_map_of_mem _ ht))))))))))))))))

/-- Membership bridge: a datatype accepted for `GL_RG` gives a pair in
`supportedPairs`. -/
theorem sup_mem_rg (t : Nat) (ht : t ∈ vtcScalar7) :
    (GL_RG, t) ∈ supportedPairs := by
  unfold supportedPairs
  exact List.mem_append_left _ (List.mem_append_left _ (List.mem_append_left _ (List.mem_append_left _ (List.mem_append_left _ (List.mem_append_left _ (List.mem_append_left _ (List.mem_append_left _ (List.mem_append_left _ (List.mem_append_left _ (List.mem_append_left _ (List.mem_append_left _ (List.mem_append_left _ (List.mem_append_left _ (List.mem_append_right _ (List.mem_map_of_mem _ ht)))))))))))))))

/-- Membership bridge: a datatype accepted for `GL_RGB` gives a pair in
`supportedPairs`. -/
theorem sup_mem_rgb (t : Nat) (ht : t ∈ vtcScalar7 ++ vtcPackedRGB) :
    (GL_RGB, t) ∈ supportedPairs := by
  unfold supportedPairs
  exact List.mem_append_left _ (List.mem_append_left _ (List.mem_append_left _ (List.mem_append_left _ (List.mem_append_left _ (List.mem_append_left _ (List.mem_append_left _ (List.mem_append_left _ (List.mem_append_left _ (List.mem_append_left _ (List.mem_append_left _ (List.mem_append_left _ (List.mem_append_left _ (List.mem_append_right _ (List.mem_map_of_mem _ ht))))))))))))))

/-- Membership bridge: a datatype accepted for `GL_RGBA` gives a pair in
`supportedPairs`. -/
theorem sup_mem_rgba (t : Nat) (ht : t ∈ vtcScalar7 ++ vtcPacked4) :
    (GL_RGBA, t) ∈ supportedPairs := by
  unfold supportedPairs
  exact List.mem_append_left _ (List.mem_append_left _ (List.mem_append_left _ (List.mem_append_left _ (List.mem_append_left _ (List.mem_append_left _ (List.mem_append_left _ (List.mem_append_left _ (List.mem_append_left _ (List.mem_append_left _ (List.mem_append_left _ (List.mem_append_left _ (List.mem_append_right _ (List.mem_map_of_mem _ ht)))))))))))))

/-- Membership bridge: a datatype accepted for `GL_BGRA` gives a pair in
`supportedPairs`. -/
theorem sup_mem_bgra (t : Nat) (ht : t ∈ vtcScalar7 ++ vtcPacked4) :
    (GL_BGRA, t) ∈ supportedPairs := by
  unfold supportedPairs
  exact List.mem_append_left _ (List.mem_append_left _ (List.mem_append_left _ (List.mem_append_left _ (List.mem_append_left _ (List.mem_append_left _ (List.mem_append_left _ (List.mem_append_left _ (List.mem_append_left _ (List.mem_append_left _ (List.mem_append_left _ (List.mem_append_right _ (List.mem_map_of_mem _ ht))))))))))))

/-- Membership bridge: a datatype accepted for `GL_RED_INTEGER` gives a pair in
`supportedPairs`. -/
theorem sup_mem_red_integer (t : Nat) (ht : t ∈ vtcScalar6) :
    (GL_RED_INTEGER, t) ∈ supportedPairs := by
  unfold supportedPairs
  exact List.mem_append_left _ (List.mem_append_left _ (List.mem_append_left _ (List.mem_append_left _ (List.mem_append_left _ (List.mem_append_left _ (List.mem_append_left _ (List.mem_append_left _ (List.mem_append_left _ (List.mem_append_left _ (List.mem_append_right _ (List.mem_map_of_mem _ ht)))))))))))

/-- Membership bridge: a datatype accepted for `GL_GREEN_INTEGER` gives a pair in
`supportedPairs`. -/
theorem sup_mem_green_integer (t : Nat) (ht : t ∈ vtcScalar6) :
    (GL_GREEN_INTEGER, t) ∈ supportedPairs := by
  unfold supportedPairs
  exact List.mem_append_left _ (List.mem_append_left _ (List.mem_append_left _ (List.mem_append_left _ (List.mem_append_left _ (List.mem_append_left _ (List.mem_append_left _ (List.mem_append_left _ (List.mem_append_left _ (List.mem_append_right _ (List.mem_map_of_mem _ ht))))))))))

/-- Membership bridge: a datatype accepted for `GL_BLUE_INTEGER` gives a pair in
`supportedPairs`. -/
theorem sup_mem_blue_integer (t : Nat) (ht : t ∈ vtcScalar6) :
    (GL_BLUE_INTEGER, t) ∈ supportedPairs := by
  unfold supportedPairs
  exact List.mem_append_left _ (List.mem_append_left _ (List.mem_append_left _ (List.mem_append_left _ (List.mem_append_left _ (List.mem_append_left _ (List.mem_append_left _ (List.mem_append_left _ (List.mem_append_right _ (List.mem_map_of_mem _ ht)))))))))

/-- Membership bridge: a datatype accepted for `GL_ALPHA_INTEGER` gives a pair in
`supportedPairs`. -/
theorem sup_mem_alpha_integer (t : Nat) (ht : t ∈ vtcScalar6) :
    (GL_ALPHA_INTEGER, t) ∈ supportedPairs := by
  unfold supportedPairs
  exact List.mem_append_left _ (List.mem_append_left _ (List.mem_append_left _ (List.mem_append_left _ (List.mem_append_left _ (List.mem_append_left _ (List.mem_append_left _ (List.mem_append_right _ (List.mem_map_of_mem _ ht))))))))

/-- Membership bridge: a datatype accepted for `GL_RG_INTEGER` gives a pair in
`supportedPairs`. -/
theorem sup_mem_rg_integer (t : Nat) (ht : t ∈ vtcScalar6) :
    (GL_RG_INTEGER, t) ∈ supportedPairs := by
  unfold supportedPairs
  exact List.mem_append_left _ (List.mem_append_left _ (List.mem_append_left _ (List.mem_append_left _ (List.mem_append_left _ (List.mem_append_left _ (List.mem_append_right _ (List.mem_map_of_mem _ ht)))))))

/-- Membership bridge: a datatype accepted for `GL_RGB_INTEGER` gives a pair in
`supportedPairs`. -/
theorem sup_mem_rgb_integer (t : Nat) (ht : t ∈ vtcScalar6 ++ vtcPackedRGB) :
    (GL_RGB_INTEGER, t) ∈ supportedPairs := by
  unfold supportedPairs
  exact List.mem_append_left _ (List.mem_append_left _ (List.mem_append_left _ (List.mem_append_left _ (List.mem_append_left _ (List.mem_append_right _ (List.mem_map_of_mem _ ht))))))

/-- Membership bridge: a datatype accepted for `GL_RGBA_INTEGER` gives a pair in
`supportedPairs`. -/
theorem sup_mem_rgba_integer (t : Nat) (ht : t ∈ vtcScalar6 ++ vtcPacked4) :
    (GL_RGBA_INTEGER, t) ∈ supportedPairs := by
  unfold supportedPairs
  exact List.mem_append_left _ (List.mem_append_left _ (List.mem_append_left _ (List.mem_append_left _ (List.mem_append_right _ (List.mem_map_of_mem _ ht)))))

/-- Membership bridge: a datatype accepted for `GL_BGRA_INTEGER` gives a pair in
`supportedPairs`. -/
theorem sup_mem_bgra_integer (t : Nat) (ht : t ∈ vtcScalar6 ++ vtcPacked4) :
    (GL_BGRA_INTEGER, t) ∈ supportedPairs := by
  unfold supportedPairs
  exact List.mem_append_left _ (List.mem_append_left _ (List.mem_append_left _ (List.mem_append_right _ (List.mem_map_of_mem _ ht))))

/-- Membership bridge: a datatype accepted for `GL_DEPTH_COMPONENT` gives a pair in
`supportedPairs`. -/
theorem sup_mem_depth (t : Nat) (ht : t ∈ vtcScalar7) :
    (GL_DEPTH_COMPONENT, t) ∈ supportedPairs := by
  unfold supportedPairs
  exact List.mem_append_left _ (List.mem_append_left _ (List.mem_append_right _ (List.mem_map_of_mem _ ht)))

/-- Membership bridge: a datatype accepted for `GL_STENCIL_INDEX` gives a pair in
`supportedPairs`. -/
theorem sup_mem_stencil (t : Nat) (ht : t ∈ vtcScalar7) :
    (GL_STENCIL_INDEX, t) ∈ supportedPairs := by
  unfold supportedPairs
  exact List.mem_append_left _ (List.mem_append_right _ (List.mem_map_of_mem _ ht))

/-- Types accepted by the `GL_RED` switch give supported pairs. -/
theorem vtc_red_sup (t : Nat) (r : pxfmt_sized_format)
    (h : vtc_red t = some r) : (GL_RED, t) ∈ supportedPairs := by
  unfold vtc_red at h
  simp only [ite_eq_iff] at h
  repeat' rcases h with ⟨rfl, -⟩ | ⟨-, h⟩
  all_goals first
    | exact Option.noConfusion h
    | refine sup_mem_red _ (by decide)

/-- Types accepted by the `GL_GREEN` switch give supported pairs. -/
theorem vtc_green_sup (t : Nat) (r : pxfmt_sized_format)
    (h : vtc_green t = some r) : (GL_GREEN, t) ∈ supportedPairs := by
  unfold vtc_green at h
  simp only [ite_eq_iff] at h
  repeat' rcases h with ⟨rfl, -⟩ | ⟨-, h⟩
  all_goals first
    | exact Option.noConfusion h
    | refine sup_mem_green _ (by decide)

/-- Types accepted by the `GL_BLUE` switch give supported pairs. -/
theorem vtc_blue_sup (t : Nat) (r : pxfmt_sized_format)
    (h : vtc_blue t = some r) : (GL_BLUE, t) ∈ supportedPairs := by
  unfold vtc_blue at h
  simp only [ite_eq_iff] at h
  repeat' rcases h with ⟨rfl, -⟩ | ⟨-, h⟩
  all_goals first
    | exact Option.noConfusion h
    | refine sup_mem_blue _ (by decide)

/-- Types accepted by the `GL_ALPHA` switch give supported pairs. -/
theorem vtc_alpha_sup (t : Nat) (r : pxfmt_sized_format)
    (h : vtc_alpha t = some r) : (GL_ALPHA, t) ∈ supportedPairs := by
  unfold vtc_alpha at h
  simp only [ite_eq_iff] at h
  repeat' rcases h with ⟨rfl, -⟩ | ⟨-, h⟩
  all_goals first
    | exact Option.noConfusion h
    | refine sup_mem_alpha _ (by decide)

/-- Types accepted by the `GL_RG` switch give supported pairs. -/
theorem vtc_rg_sup (t : Nat) (r : pxfmt_sized_format)
    (h : vtc_rg t = some r) : (GL_RG, t) ∈ supportedPairs := by
  unfold vtc_rg at h
  simp only [ite_eq_iff] at h
  repeat' rcases h with ⟨rfl, -⟩ | ⟨-, h⟩
  all_goals first
    | exact Option.noConfusion h
    | refine sup_mem_rg _ (by decide)

/-- Types accepted by the `GL_RGB` switch give supported pairs. -/
theorem vtc_rgb_sup (t : Nat) (r : pxfmt_sized_format)
    (h : vtc_rgb t = some r) : (GL_RGB, t) ∈ supportedPairs := by
  unfold vtc_rgb at h
  simp only [ite_eq_iff] at h
  repeat' rcases h with ⟨rfl, -⟩ | ⟨-, h⟩
  all_goals first
    | exact Option.noConfusion h
    | refine sup_mem_rgb _ (by decide)

/-- Types accepted by the `GL_RGBA` switch give supported pairs. -/
theorem vtc_rgba_sup (t : Nat) (r : pxfmt_sized_format)
    (h : vtc_rgba t = some r) : (GL_RGBA, t) ∈ supportedPairs := by
  unfold vtc_rgba at h
  simp only [ite_eq_iff] at h
  repeat' rcases h with ⟨rfl, -⟩ | ⟨-, h⟩
  all_goals first
    | exact Option.noConfusion h
    | refine sup_mem_rgba _ (by decide)

/-- Types accepted by the `GL_BGRA` switch give supported pairs. -/
theorem vtc_bgra_sup (t : Nat) (r : pxfmt_sized_format)
    (h : vtc_bgra t = some r) : (GL_BGRA, t) ∈ supportedPairs := by
  unfold vtc_bgra at h
  simp only [ite_eq_iff] at h
  repeat' rcases h with ⟨rfl, -⟩ | ⟨-, h⟩
  all_goals first
    | exact Option.noConfusion h
    | refine sup_mem_bgra _ (by decide)

/-- Types accepted by the `GL_RED_INTEGER` switch give supported pairs. -/
theorem vtc_red_integer_sup (t : Nat) (r : pxfmt_sized_format)
    (h : vtc_red_integer t = some r) : (GL_RED_INTEGER, t) ∈ supportedPairs := by
  unfold vtc_red_integer at h
  simp only [ite_eq_iff] at h
  repeat' rcases h with ⟨rfl, -⟩ | ⟨-, h⟩
  all_goals first
    | exact Option.noConfusion h
    | refine sup_mem_red_integer _ (by decide)

/-- Types accepted by the `GL_GREEN_INTEGER` switch give supported pairs. -/
theorem vtc_green_integer_sup (t : Nat) (r : pxfmt_sized_format)
    (h : vtc_green_integer t = some r) : (GL_GREEN_INTEGER, t) ∈ supportedPairs := by
  unfold vtc_green_integer at h
  simp only [ite_eq_iff] at h
  repeat' rcases h with ⟨rfl, -⟩ | ⟨-, h⟩
  all_goals first
    | exact Option.noConfusion h
    | refine sup_mem_green_integer _ (by decide)

/-- Types accepted by the `GL_BLUE_INTEGER` switch give supported pairs. -/
theorem vtc_blue_integer_sup (t : Nat) (r : pxfmt_sized_format)
    (h : vtc_blue_integer t = some r) : (GL_BLUE_INTEGER, t) ∈ supportedPairs := by
  unfold vtc_blue_integer at h
  simp only [ite_eq_iff] at h
  repeat' rcases h with ⟨rfl, -⟩ | ⟨-, h⟩
  all_goals first
    | exact Option.noConfusion h
    | refine sup_mem_blue_integer _ (by decide)

/-- Types accepted by the `GL_ALPHA_INTEGER` switch give supported pairs. -/
theorem vtc_alpha_integer_sup (t : Nat) (r : pxfmt_sized_format)
    (h : vtc_alpha_integer t = some r) : (GL_ALPHA_INTEGER, t) ∈ supportedPairs := by
  unfold vtc_alpha_integer at h
  simp only [ite_eq_iff] at h
  repeat' rcases h with ⟨rfl, -⟩ | ⟨-, h⟩
  all_goals first
    | exact Option.noConfusion h
    | refine sup_mem_alpha_integer _ (by decide)

/-- Types accepted by the `GL_RG_INTEGER` switch give supported pairs. -/
theorem vtc_rg_integer_sup (t : Nat) (r : pxfmt_sized_format)
    (h : vtc_rg_integer t = some r) : (GL_RG_INTEGER, t) ∈ supportedPairs := by
  unfold vtc_rg_integer at h
  simp only [ite_eq_iff] at h
  repeat' rcases h with ⟨rfl, -⟩ | ⟨-, h⟩
  all_goals first
    | exact Option.noConfusion h
    | refine sup_mem_rg_integer _ (by decide)

/-- Types accepted by the `GL_RGB_INTEGER` switch give supported pairs. -/
theorem vtc_rgb_integer_sup (t : Nat) (r : pxfmt_sized_format)
    (h : vtc_rgb_integer t = some r) : (GL_RGB_INTEGER, t) ∈ supportedPairs := by
  unfold vtc_rgb_integer at h
  simp only [ite_eq_iff] at h
  repeat' rcases h with ⟨rfl, -⟩ | ⟨-, h⟩
  all_goals first
    | exact Option.noConfusion h
    | refine sup_mem_rgb_integer _ (by decide)

/-- Types accepted by the `GL_RGBA_INTEGER` switch give supported pairs. -/
theorem vtc_rgba_integer_sup (t : Nat) (r : pxfmt_sized_format)
    (h : vtc_rgba_integer t = some r) : (GL_RGBA_INTEGER, t) ∈ supportedPairs := by
  unfold vtc_rgba_integer vtc_bgra_integer at h
  simp only [ite_eq_iff] at h
  repeat' rcases h with ⟨rfl, -⟩ | ⟨-, h⟩
  all_goals first
    | exact Option.noConfusion h
    | refine sup_mem_rgba_integer _ (by decide)

/-- Types accepted by the `GL_BGRA_INTEGER` switch give supported pairs. -/
theorem vtc_bgra_integer_sup (t : Nat) (r : pxfmt_sized_format)
    (h : vtc_bgra_integer t = some r) : (GL_BGRA_INTEGER, t) ∈ supportedPairs := by
  unfold vtc_bgra_integer at h
  simp only [ite_eq_iff] at h
  repeat' rcases h with ⟨rfl, -⟩ | ⟨-, h⟩
  all_goals first
    | exact Option.noConfusion h
    | refine sup_mem_bgra_integer _ (by decide)

/-- Types accepted by the `GL_DEPTH_COMPONENT` switch give supported pairs. -/
theorem vtc_depth_sup (t : Nat) (r : pxfmt_sized_format)
    (h : vtc_depth t = some r) : (GL_DEPTH_COMPONENT, t) ∈ supportedPairs := by
  unfold vtc_depth at h
  simp only [ite_eq_iff] at h
  repeat' rcases h with ⟨rfl, -⟩ | ⟨-, h⟩
  all_goals first
    | exact Option.noConfusion h
    | refine sup_mem_depth _ (by decide)

/-- Types accepted by the `GL_STENCIL_INDEX` switch give supported pairs. -/
theorem vtc_stencil_sup (t : Nat) (r : pxfmt_sized_format)
    (h : vtc_stencil t = some r) : (GL_STENCIL_INDEX, t) ∈ supportedPairs := by
  unfold vtc_stencil at h
  simp only [ite_eq_iff] at h
  repeat' rcases h with ⟨rfl, -⟩ | ⟨-, h⟩
  all_goals first
    | exact Option.noConfusion h
    | refine sup_mem_stencil _ (by decide)

/-- Membership bridge for the `GL_DEPTH_STENCIL` switch. -/
theorem vtc_depth_stencil_sup (t : Nat) (r : pxfmt_sized_format)
    (h : vtc_depth_stencil t = some r) : (GL_DEPTH_STENCIL, t) ∈ supportedPairs := by
  unfold vtc_depth_stencil at h
  simp only [ite_eq_iff] at h
  repeat' rcases h with ⟨rfl, -⟩ | ⟨-, h⟩
  all_goals first
    | exact Option.noConfusion h
    | (unfold supportedPairs; refine List.mem_append_right _ (by decide))

/-- Every (format, type) pair on which `validate_format_type_combo`
returns a format id belongs to `supportedPairs`. -/
theorem validate_mem (f t : Nat) (r : pxfmt_sized_format)
    (h : validate_format_type_combo f t = some r) : (f, t) ∈ supportedPairs := by
  unfold validate_format_type_combo at h
  simp only [ite_eq_iff] at h
  repeat' rcases h with ⟨rfl, h⟩ | ⟨-, h⟩
  all_goals first
    | exact Option.noConfusion h
    | exact vtc_red_sup _ _ h
    | exact vtc_green_sup _ _ h
    | exact vtc_blue_sup _ _ h
    | exact vtc_alpha_sup _ _ h
    | exact vtc_rg_sup _ _ h
    | exact vtc_rgb_sup _ _ h
    | exact vtc_rgba_sup _ _ h
    | exact vtc_bgra_sup _ _ h
    | exact vtc_red_integer_sup _ _ h
    | exact vtc_green_integer_sup _ _ h
    | exact vtc_blue_integer_sup _ _ h
    | exact vtc_alpha_integer_sup _ _ h
    | exact vtc_rg_integer_sup _ _ h
    | exact vtc_rgb_integer_sup _ _ h
    | exact vtc_rgba_integer_sup _ _ h
    | exact vtc_bgra_integer_sup _ _ h
    | exact vtc_depth_sup _ _ h
    | exact vtc_stencil_sup _ _ h
    | exact vtc_depth_stencil_sup _ _ h

/-- Claim C3: the format identifier `validate_format_type_combo` is a total
deterministic function (it is a Lean function on all of `Nat × Nat`); every
pair outside the defined supported cross-product `supportedPairs` returns
`PXFMT_INVALID` (modelled as `none`), never a valid encoding id — including
the pair (depth layout `GL_DEPTH_COMPONENT`, packed 5-6-5 datatype
`GL_UNSIGNED_SHORT_5_6_5`). -/
theorem c3_validate_unsupported_pairs :
    (∀ f t, (f, t) ∉ supportedPairs → validate_format_type_combo f t = none) ∧
    validate_format_type_combo GL_DEPTH_COMPONENT GL_UNSIGNED_SHORT_5_6_5 = none := by
  constructor
  · intro f t hnot
    cases heq : validate_format_type_combo f t with
    | none => rfl
    | some r => exact absurd (validate_mem f t r heq) hnot
  · decide

/-- Witness for C3 at the concrete unsupported pair (0, 0). -/
theorem c3_validate_unsupported_pairs_witness :
    validate_format_type_combo 0 0 = none :=
  c3_validate_unsupported_pairs.1 0 0 (by decide)

/-- For `x < 2^32`, masking with `0xFFFFFFFC` clears the low two bits:
`x & 0xFFFFFFFC = x / 4 * 4`. -/
theorem land_fffffffc (x : Nat) (hx : x < 4294967296) :
    x &&& 4294967292 = x / 4 * 4 := by
  have hm : (4294967292 : Nat) = (2 ^ 30 - 1) <<< 2 := by decide
  have h4 : x / 4 * 4 = (x >>> 2) <<< 2 := by
    rw [Nat.shiftRight_eq_div_pow, Nat.shiftLeft_eq]
  rw [hm, h4]
  apply Nat.eq_of_testBit_eq
  intro i
  rw [Nat.testBit_and, Nat.testBit_shiftLeft, Nat.testBit_shiftLeft,
    Nat.testBit_shiftRight, Nat.testBit_two_pow_sub_one]
  by_cases h2 : 2 ≤ i
  · by_cases h32 : i < 32
    · have he : 2 + (i - 2) = i := by omega
      have hd : i - 2 < 30 := by omega
      simp [h2, he, hd]
    · have hxb : x.testBit i = false := by
        apply Nat.testBit_lt_two_pow
        calc x < 4294967296 := hx
          _ = 2 ^ 32 := by norm_num
          _ ≤ 2 ^ i := Nat.pow_le_pow_right (by norm_num) (by omega)
      have hd : ¬ i - 2 < 30 := by omega
      have he : 2 + (i - 2) = i := by omega
      simp [hxb, hd, he]
  · simp [h2]

/-- Claim C7 counterexample: the row stride is computed in 32-bit
arithmetic, so at `PXFMT_RGBA32_UNORM` (16 bytes per pixel) and width
`2^28` the product wraps to 0 and the computed row stride is 0, not
`bytes_per_pixel × width` rounded up to the next multiple of 4
(which is `2^32`). -/
theorem c7_row_stride_counterexample :
    get_row_stride .PXFMT_RGBA32_UNORM 268435456 = 0 ∧
    get_pixel_stride .PXFMT_RGBA32_UNORM * 268435456 = 4294967296 ∧
    (get_pixel_stride .PXFMT_RGBA32_UNORM * 268435456 + 3) / 4 * 4 = 4294967296 ∧
    get_row_stride .PXFMT_RGBA32_UNORM 268435456 ≠
      (get_pixel_stride .PXFMT_RGBA32_UNORM * 268435456 + 3) / 4 * 4 := by
  refine ⟨by decide, by decide, by decide, by decide⟩

/-- Claim C7 (amended): for every encoding and every width such that
`bytes_per_pixel × width + 3` does not overflow 32 bits, the computed
per-row stride equals `bytes_per_pixel × width` rounded up to the next
multiple of 4 (it is a multiple of 4, at least the product, and less than
the product plus 4), and the per-pixel stride is the descriptor's
`bytes_per_pixel`. -/
theorem c7_row_stride_amended :
    ∀ (fmt : pxfmt_sized_format) (width : Nat),
      get_pixel_stride fmt * width + 3 < 4294967296 →
      get_row_stride fmt width = (get_pixel_stride fmt * width + 3) / 4 * 4 ∧
      4 ∣ get_row_stride fmt width ∧
      get_pixel_stride fmt * width ≤ get_row_stride fmt width ∧
      get_row_stride fmt width < get_pixel_stride fmt * width + 4 ∧
      get_pixel_stride fmt = (fmt_info fmt).bytes_per_pixel := by
  intro fmt width h
  have h1 : get_pixel_stride fmt * width % 4294967296 = get_pixel_stride fmt * width :=
    Nat.mod_eq_of_lt (by omega)
  have hr : get_row_stride fmt width = (get_pixel_stride fmt * width + 3) / 4 * 4 := by
    unfold get_row_stride
    rw [h1, Nat.mod_eq_of_lt h, land_fffffffc _ h]
  refine ⟨hr, ?_, ?_, ?_, rfl⟩
  · rw [hr]; omega
  · rw [hr]; omega
  · rw [hr]; omega

/-- Witness for the amended C7 at `PXFMT_R8_UNORM`, width 5: stride 8. -/
theorem c7_row_stride_amended_witness :
    get_row_stride .PXFMT_R8_UNORM 5 = (get_pixel_stride .PXFMT_R8_UNORM * 5 + 3) / 4 * 4 ∧
    4 ∣ get_row_stride .PXFMT_R8_UNORM 5 ∧
    get_pixel_stride .PXFMT_R8_UNORM * 5 ≤ get_row_stride .PXFMT_R8_UNORM 5 ∧
    get_row_stride .PXFMT_R8_UNORM 5 < get_pixel_stride .PXFMT_R8_UNORM * 5 + 4 ∧
    get_pixel_stride .PXFMT_R8_UNORM = (fmt_info .PXFMT_R8_UNORM).bytes_per_pixel :=
  c7_row_stride_amended .PXFMT_R8_UNORM 5 (by decide)

/-- Claim C8 (code-bug exhibit): for every packed encoding the
per-component masks are pairwise disjoint; but for `PXFMT_RGB565_UINT`
(declared with `uint8` storage in the table, unlike its `uint16` UNORM
sibling) the mask union `0xFFFF` does not fit in the 8-bit storage
scalar, violating the invariant. -/
theorem c8_packed_mask_invariant_violation :
    (∀ fmt : pxfmt_sized_format, (fmt_info fmt).is_packed = true →
      (fmt_info fmt).mask 0 &&& (fmt_info fmt).mask 1 = 0 ∧
      (fmt_info fmt).mask 0 &&& (fmt_info fmt).mask 2 = 0 ∧
      (fmt_info fmt).mask 0 &&& (fmt_info fmt).mask 3 = 0 ∧
      (fmt_info fmt).mask 1 &&& (fmt_info fmt).mask 2 = 0 ∧
      (fmt_info fmt).mask 1 &&& (fmt_info fmt).mask 3 = 0 ∧
      (fmt_info fmt).mask 2 &&& (fmt_info fmt).mask 3 = 0) ∧
    (fmt_info .PXFMT_RGB565_UINT).is_packed = true ∧
    ((fmt_info .PXFMT_RGB565_UINT).mask 0 ||| (fmt_info .PXFMT_RGB565_UINT).mask 1 |||
      (fmt_info .PXFMT_RGB565_UINT).mask 2 ||| (fmt_info .PXFMT_RGB565_UINT).mask 3) = 65535 ∧
    (fmt_info .PXFMT_RGB565_UINT).storage.bits = 8 ∧
    ¬ ((fmt_info .PXFMT_RGB565_UINT).mask 0 ||| (fmt_info .PXFMT_RGB565_UINT).mask 1 |||
        (fmt_info .PXFMT_RGB565_UINT).mask 2 ||| (fmt_info .PXFMT_RGB565_UINT).mask 3) <
      2 ^ (fmt_info .PXFMT_RGB565_UINT).storage.bits := by
  refine ⟨?_, by decide, by decide, by decide, by decide⟩
  intro fmt
  cases fmt <;> decide

/-- Witness for C8's universally-quantified disjointness part at the
packed encoding `PXFMT_RGB565_UNORM`. -/
theorem c8_packed_mask_invariant_violation_witness :
    (fmt_info .PXFMT_RGB565_UNORM).mask 0 &&& (fmt_info .PXFMT_RGB565_UNORM).mask 1 = 0 ∧
    (fmt_info .PXFMT_RGB565_UNORM).mask 0 &&& (fmt_info .PXFMT_RGB565_UNORM).mask 2 = 0 ∧
    (fmt_info .PXFMT_RGB565_UNORM).mask 0 &&& (fmt_info .PXFMT_RGB565_UNORM).mask 3 = 0 ∧
    (fmt_info .PXFMT_RGB565_UNORM).mask 1 &&& (fmt_info .PXFMT_RGB565_UNORM).mask 2 = 0 ∧
    (fmt_info .PXFMT_RGB565_UNORM).mask 1 &&& (fmt_info .PXFMT_RGB565_UNORM).mask 3 = 0 ∧
    (fmt_info .PXFMT_RGB565_UNORM).mask 2 &&& (fmt_info .PXFMT_RGB565_UNORM).mask 3 = 0 :=
  c8_packed_mask_invariant_violation.1 .PXFMT_RGB565_UNORM (by decide)

/-- `(x &&& m) &&& m = x &&& m`. -/
theorem land_absorb (x m : Nat) : (x &&& m) &&& m = x &&& m := by
  apply Nat.eq_of_testBit_eq
  intro i
  simp only [Nat.testBit_and]
  cases x.testBit i <;> cases m.testBit i <;> rfl

/-- An OR of mask-confined terms, masked with the union of the masks, is
unchanged. -/
theorem masked_or_land_union (a0 a1 a2 a3 m0 m1 m2 m3 : Nat) :
    ((a0 &&& m0) ||| (a1 &&& m1) ||| (a2 &&& m2) ||| (a3 &&& m3)) &&&
      (m0 ||| m1 ||| m2 ||| m3) =
      (a0 &&& m0) ||| (a1 &&& m1) ||| (a2 &&& m2) ||| (a3 &&& m3) := by
  apply Nat.eq_of_testBit_eq
  intro i
  simp only [Nat.testBit_and, Nat.testBit_or]
  cases a0.testBit i <;> cases a1.testBit i <;> cases a2.testBit i <;>
    cases a3.testBit i <;> cases m0.testBit i <;> cases m1.testBit i <;>
    cases m2.testBit i <;> cases m3.testBit i <;> rfl

/-- Claim C10: for every packed encoding and every intermediate pixel
value (including out-of-range component values), each component's
contribution to the scalar built by `from_int_comp_packed` is confined to
that component's mask, and every bit of the scalar outside the union of
the four masks is zero (masking the scalar with the union leaves it
unchanged). -/
theorem c10_packed_encode_confined :
    ∀ (fmt : pxfmt_sized_format) (src : Nat → imval),
      (fmt_info fmt).is_packed = true →
      (∀ c, from_int_packed_term fmt src c &&& (fmt_info fmt).mask c =
        from_int_packed_term fmt src c) ∧
      from_int_comp_packed_val fmt src &&&
        ((fmt_info fmt).mask 0 ||| (fmt_info fmt).mask 1 |||
          (fmt_info fmt).mask 2 ||| (fmt_info fmt).mask 3) =
        from_int_comp_packed_val fmt src := by
  intro fmt src _
  constructor
  · intro c
    exact land_absorb _ _
  · exact masked_or_land_union _ _ _ _ _ _ _ _

/-- Witness for C10 at `PXFMT_RGB565_UNORM` with an intermediate whose
components are all 2.0 (outside [0, 1]). -/
theorem c10_packed_encode_confined_witness :
    from_int_comp_packed_val .PXFMT_RGB565_UNORM (fun _ => imval.fp 2) &&&
      ((fmt_info .PXFMT_RGB565_UNORM).mask 0 ||| (fmt_info .PXFMT_RGB565_UNORM).mask 1 |||
        (fmt_info .PXFMT_RGB565_UNORM).mask 2 ||| (fmt_info .PXFMT_RGB565_UNORM).mask 3) =
      from_int_comp_packed_val .PXFMT_RGB565_UNORM (fun _ => imval.fp 2) :=
  (c10_packed_encode_confined .PXFMT_RGB565_UNORM (fun _ => imval.fp 2) (by decide)).2

/-- Claim C9: for every encoding and stored value, the value computed by
the normalized decode paths is the uint32-cast of the source divided by
the component max — nonnegative, with the signed lower clamp at −1.0
never changing the result (the definitions containing the clamp equal
their clamp-free forms). -/
theorem c9_normalized_decode_nonneg :
    (∀ (fmt : pxfmt_sized_format) (c sv : Nat),
      to_int_comp_norm_unpacked_val fmt c sv =
        ((castU32ofStorage (fmt_info fmt).storage.bits (fmt_info fmt).storage.sgn sv : Nat) : ℚ) /
          ((fmt_info fmt).maxv c : ℚ) ∧
      0 ≤ to_int_comp_norm_unpacked_val fmt c sv) ∧
    (∀ (fmt : pxfmt_sized_format) (c sv : Nat),
      (fmt_info fmt).is_normalized = true →
      to_int_comp_packed_val fmt c sv =
        imOfQ (fmt_info fmt)
          ((((castU32ofStorage (fmt_info fmt).storage.bits (fmt_info fmt).storage.sgn sv &&&
              (fmt_info fmt).mask c) >>> (fmt_info fmt).sh c : Nat) : ℚ) /
            ((fmt_info fmt).maxv c : ℚ))) := by
  have key : ∀ (q : ℚ), 0 ≤ q → cmax q (-1) = q := by
    intro q hq
    unfold cmax
    rw [if_neg]
    intro hlt
    linarith
  constructor
  · intro fmt c sv
    have hq : (0:ℚ) ≤
        ((castU32ofStorage (fmt_info fmt).storage.bits (fmt_info fmt).storage.sgn sv : Nat) : ℚ) /
          ((fmt_info fmt).maxv c : ℚ) :=
      div_nonneg (Nat.cast_nonneg _) (Nat.cast_nonneg _)
    have hval : to_int_comp_norm_unpacked_val fmt c sv =
        ((castU32ofStorage (fmt_info fmt).storage.bits (fmt_info fmt).storage.sgn sv : Nat) : ℚ) /
          ((fmt_info fmt).maxv c : ℚ) := by
      unfold to_int_comp_norm_unpacked_val
      by_cases hs : (fmt_info fmt).is_signed = true
      · simp only [hs, if_true]
        exact key _ hq
      · simp [hs]
    exact ⟨hval, hval ▸ hq⟩
  · intro fmt c sv hnorm
    unfold to_int_comp_packed_val
    simp only [hnorm, if_true]
    congr 1
    by_cases hs : (fmt_info fmt).is_signed = true
    · simp only [hs, if_true]
      exact key _ (div_nonneg (Nat.cast_nonneg _) (Nat.cast_nonneg _))
    · simp [hs]

/-- Witness for C9: decoding the stored byte `0xFF` of the signed
normalized `PXFMT_R8_SNORM` (value −1) yields the large positive fraction
`4294967295 / 127`, and the packed signed decode of `PXFMT_RGBA8_SNORM`
equals its clamp-free form. -/
theorem c9_normalized_decode_nonneg_witness :
    0 ≤ to_int_comp_norm_unpacked_val .PXFMT_R8_SNORM 0 255 ∧
    to_int_comp_packed_val .PXFMT_RGBA8_SNORM 0 255 =
      imOfQ (fmt_info .PXFMT_RGBA8_SNORM)
        ((((castU32ofStorage (fmt_info .PXFMT_RGBA8_SNORM).storage.bits
            (fmt_info .PXFMT_RGBA8_SNORM).storage.sgn 255 &&&
            (fmt_info .PXFMT_RGBA8_SNORM).mask 0) >>>
            (fmt_info .PXFMT_RGBA8_SNORM).sh 0 : Nat) : ℚ) /
          ((fmt_info .PXFMT_RGBA8_SNORM).maxv 0 : ℚ)) :=
  ⟨(c9_normalized_decode_nonneg.1 .PXFMT_R8_SNORM 0 255).2,
   c9_normalized_decode_nonneg.2 .PXFMT_RGBA8_SNORM 0 255 (by decide)⟩

/-- Claim C4: for an 8-bit unsigned normalized unpacked encoding
(`uint8` storage, unsigned, normalized, unpacked, 8-bit component,
floating-point intermediate) and every stored byte `v < 256`, decoding
`v` with `to_int_comp_norm_unpacked` (giving `v / 255`) into the
intermediate and encoding it back with `from_int_comp_norm_unpacked`
(truncating `intermediate × 255`) reproduces exactly `v`, whatever the
rest of the intermediate holds. -/
theorem c4_unorm8_round_trip :
    ∀ (fmt : pxfmt_sized_format) (c v : Nat) (itm : Nat → imval),
      (fmt_info fmt).is_normalized = true →
      (fmt_info fmt).is_packed = false →
      (fmt_info fmt).is_signed = false →
      (fmt_info fmt).storage = cstor.u8 →
      (fmt_info fmt).itype_fp = true →
      (fmt_info fmt).nb c = 8 →
      v < 256 →
      from_int_comp_norm_unpacked_pat fmt
        (Function.update itm ((fmt_info fmt).idx c).toNat
          (imOfQ (fmt_info fmt) (to_int_comp_norm_unpacked_val fmt c v))) c = v := by
  intro fmt c v itm _hnorm _hpack hsgn hstor hitfp hnb hv
  have hbits : (fmt_info fmt).storage.bits = 8 := by rw [hstor]; rfl
  have hsg : (fmt_info fmt).storage.sgn = false := by rw [hstor]; rfl
  have hf32 : (fmt_info fmt).storage.isF32 = false := by rw [hstor]; rfl
  have hmax : (fmt_info fmt).maxv c = 255 := by
    unfold FmtInfo.maxv max_values
    rw [hsgn, hnb]
    norm_num
  have hcast : castU32ofStorage (fmt_info fmt).storage.bits (fmt_info fmt).storage.sgn v = v := by
    rw [hbits, hsg]
    simp only [castU32ofStorage, toSignedInt, Bool.false_eq_true, false_and, if_false]
    omega
  have hval : to_int_comp_norm_unpacked_val fmt c v = (v : ℚ) / 255 := by
    simp only [to_int_comp_norm_unpacked_val, hsgn, Bool.false_eq_true, if_false,
      hcast, hmax, Nat.cast_ofNat]
  simp only [from_int_comp_norm_unpacked_pat, hitfp, if_true, Function.update_same,
    imOfQ, imval.getQ, hval, hmax, Nat.cast_ofNat]
  rw [show (v : ℚ) / 255 * (255 : ℚ) = (v : ℚ) from by field_simp]
  simp only [storePattern, hf32, Bool.false_eq_true, if_false, ratTrunc, hbits]
  rw [if_neg (not_lt.mpr (by positivity)), Int.floor_natCast,
    show ((2 : Int) ^ (8 : Nat)) = 256 from by norm_num]
  omega

/-- Witness for C4 at `PXFMT_R8_UNORM`, component 0, byte 137. -/
theorem c4_unorm8_round_trip_witness :
    from_int_comp_norm_unpacked_pat .PXFMT_R8_UNORM
      (Function.update (set_intermediate_to_defaults (fmt_info .PXFMT_R8_UNORM))
        ((fmt_info .PXFMT_R8_UNORM).idx 0).toNat
        (imOfQ (fmt_info .PXFMT_R8_UNORM)
          (to_int_comp_norm_unpacked_val .PXFMT_R8_UNORM 0 137))) 0 = 137 :=
  c4_unorm8_round_trip .PXFMT_R8_UNORM 0 137
    (set_intermediate_to_defaults (fmt_info .PXFMT_R8_UNORM))
    (by decide) (by decide) (by decide) (by decide) (by decide) (by decide) (by decide)

/-- Claim C5: decoding the combined 32-bit value `0xFFFFFF42` in
`PXFMT_D24_UNORM_S8_UINT` yields an intermediate whose stencil slot
holds exactly `0x42` and whose depth slot is the extracted 24-bit depth
field divided by the max constant `2^24 − 1`, which is within `2^−16`
of 1.0. -/
theorem c5_d24s8_decode :
    to_intermediate .PXFMT_D24_UNORM_S8_UINT (fun _ => 0xFFFFFF42) 1 = imval.iv 0x42 ∧
    to_intermediate .PXFMT_D24_UNORM_S8_UINT (fun _ => 0xFFFFFF42) 0 =
      imval.fp (((0xFFFFFF42 &&& 0xFFFFFF : Nat) : ℚ) / ((2 : ℚ) ^ 24 - 1)) ∧
    |(to_intermediate .PXFMT_D24_UNORM_S8_UINT (fun _ => 0xFFFFFF42) 0).getQ - 1|
      < 1 / 2 ^ 16 := by
  have hA : (((0xFFFFFF42 &&& 0xFFFFFF : Nat) : ℚ) / ((2 : ℚ) ^ 24 - 1)) =
      ((16777026 : ℚ) / 16777215) := by
    rw [show (0xFFFFFF42 &&& 0xFFFFFF : Nat) = (16777026 : Nat) from by decide]
    norm_num
  refine ⟨by with_unfolding_all decide, ?_, ?_⟩
  · rw [hA]
    with_unfolding_all rfl
  · rw [show (1 : ℚ) / 2 ^ 16 = 1 / 65536 from by norm_num]
    with_unfolding_all decide


/-- The generic per-component decode loop leaves any slot untouched whose
intermediate index is not the target of any component in the list. -/
theorem to_int_loop_preserve (fmt : pxfmt_sized_format) (s : Nat → Nat) (i : Nat) :
    ∀ (cs : List Nat) (d : Nat → imval),
      (∀ c ∈ cs, (fmt_info fmt).idx c ≠ (i : Int)) →
      (cs.foldl (to_int_comp_apply fmt s) d) i = d i := by
  intro cs
  induction cs with
  | nil => intro d _; rfl
  | cons a l ih =>
    intro d h
    rw [List.foldl_cons, ih _ (fun c hc => h c (List.mem_cons_of_mem _ hc))]
    have ha := h a (List.mem_cons_self a l)
    unfold to_int_comp_apply
    split
    · rename_i h0
      rw [Function.update_noteq]
      intro heq
      exact ha (by omega)
    · rfl

/-- The dedicated `PXFMT_D24_UNORM_S8_UINT` decode writes only slots 0
(depth) and 1 (stencil). -/
theorem d24_slots (src : Nat → Nat) (i : Nat) (h0 : i ≠ 0) (h1 : i ≠ 1) :
    to_intermediate .PXFMT_D24_UNORM_S8_UINT src i =
      set_intermediate_to_defaults (fmt_info .PXFMT_D24_UNORM_S8_UINT) i := by
  show (Function.update (Function.update
      (set_intermediate_to_defaults (fmt_info .PXFMT_D24_UNORM_S8_UINT)) 0 _) 1 _) i = _
  rw [Function.update_noteq h1, Function.update_noteq h0]

/-- The dedicated `PXFMT_D32_FLOAT_S8_UINT` decode writes only slots 0
(depth) and 1 (stencil). -/
theorem d32_slots (src : Nat → Nat) (i : Nat) (h0 : i ≠ 0) (h1 : i ≠ 1) :
    to_intermediate .PXFMT_D32_FLOAT_S8_UINT src i =
      set_intermediate_to_defaults (fmt_info .PXFMT_D32_FLOAT_S8_UINT) i := by
  show (Function.update (Function.update
      (set_intermediate_to_defaults (fmt_info .PXFMT_D32_FLOAT_S8_UINT)) 0 _) 1 _) i = _
  rw [Function.update_noteq h1, Function.update_noteq h0]

/-- Claim C6: the intermediate is initialized to `{0, 0, 0, 1}` before
decoding and only slots targeted by a present component are overwritten;
in particular, for every encoding in which no present component maps to
intermediate slot 3 (no alpha component) and every source pixel, the
decoded intermediate's alpha slot equals 1 in the format's intermediate
type. -/
theorem c6_defaults_preserved_and_alpha_one :
    (∀ (fmt : pxfmt_sized_format) (src : Nat → Nat) (i : Nat),
      (∀ c, c < (fmt_info fmt).num_components → (fmt_info fmt).idx c ≠ (i : Int)) →
      to_intermediate fmt src i = set_intermediate_to_defaults (fmt_info fmt) i) ∧
    (∀ (fmt : pxfmt_sized_format) (src : Nat → Nat),
      (∀ c, c < (fmt_info fmt).num_components → (fmt_info fmt).idx c ≠ 3) →
      to_intermediate fmt src 3 =
        (if (fmt_info fmt).itype_fp then imval.fp 1 else imval.iv 1)) := by
  have part1 : ∀ (fmt : pxfmt_sized_format) (src : Nat → Nat) (i : Nat),
      (∀ c, c < (fmt_info fmt).num_components → (fmt_info fmt).idx c ≠ (i : Int)) →
      to_intermediate fmt src i = set_intermediate_to_defaults (fmt_info fmt) i := by
    intro fmt src i h
    by_cases h24 : fmt = .PXFMT_D24_UNORM_S8_UINT
    · subst h24
      refine d24_slots src i ?_ ?_
      · intro heq
        exact h 0 (by decide) (by rw [heq]; decide)
      · intro heq
        exact h 1 (by decide) (by rw [heq]; decide)
    · by_cases h32 : fmt = .PXFMT_D32_FLOAT_S8_UINT
      · subst h32
        refine d32_slots src i ?_ ?_
        · intro heq
          exact h 0 (by decide) (by rw [heq]; decide)
        · intro heq
          exact h 1 (by decide) (by rw [heq]; decide)
      · have hrw : to_intermediate fmt src i =
            (List.range (fmt_info fmt).num_components).foldl
              (to_int_comp_apply fmt
                (fun c => src c % 2 ^ (fmt_info fmt).storage.bits))
              (set_intermediate_to_defaults (fmt_info fmt)) i := by
          simp only [to_intermediate, if_neg h24, if_neg h32]
        rw [hrw]
        exact to_int_loop_preserve fmt _ i _ _
          (fun c hc => h c (List.mem_range.mp hc))
  refine ⟨part1, ?_⟩
  intro fmt src h
  have h3 := part1 fmt src 3 (by exact_mod_cast h)
  rw [h3]
  unfold set_intermediate_to_defaults
  by_cases hf : (fmt_info fmt).itype_fp = true
  · simp [hf]
  · simp [hf]

/-- Witness for C6 at `PXFMT_RG16_UNORM` (no alpha component) with an
all-zero source pixel: the decoded alpha slot is the floating-point 1. -/
theorem c6_defaults_preserved_and_alpha_one_witness :
    to_intermediate .PXFMT_RG16_UNORM (fun _ => 0) 3 = imval.fp 1 := by
  have := c6_defaults_preserved_and_alpha_one.2 .PXFMT_RG16_UNORM (fun _ => 0)
    (by decide)
  simpa using this

/-- Claim C1: refuted. With `width = 3`, `height = 2`,
`src_fmt = dst_fmt = PXFMT_R8_UNORM` (pixel stride 1, row stride 4) and
source rows `[10, 20, 30]` and `[40, 50, 60]`, the converter's inner loop
runs only `height = 2` iterations per row: destination pixels (0,0), (1,0),
(0,1), (1,1) receive 10, 20, 40, 50, but destination pixel (2,0) at byte
offset 2 is left untouched (0), even though converting source pixel (2,0)
in isolation writes 30 there. So not every destination pixel `(x, y)` with
`x < width` receives the encoding of source pixel `(x, y)` when
`width ≠ height`. -/
theorem c1_inner_loop_counterexample :
    (pxfmt_convert_pixels (fun _ => 0)
        (fun a => List.getD [10, 20, 30, 0, 40, 50, 60, 0] a 0) 3 2
        .PXFMT_R8_UNORM .PXFMT_R8_UNORM).1 = none ∧
    (pxfmt_convert_pixels (fun _ => 0)
        (fun a => List.getD [10, 20, 30, 0, 40, 50, 60, 0] a 0) 3 2
        .PXFMT_R8_UNORM .PXFMT_R8_UNORM).2 0 = 10 ∧
    (pxfmt_convert_pixels (fun _ => 0)
        (fun a => List.getD [10, 20, 30, 0, 40, 50, 60, 0] a 0) 3 2
        .PXFMT_R8_UNORM .PXFMT_R8_UNORM).2 1 = 20 ∧
    (pxfmt_convert_pixels (fun _ => 0)
        (fun a => List.getD [10, 20, 30, 0, 40, 50, 60, 0] a 0) 3 2
        .PXFMT_R8_UNORM .PXFMT_R8_UNORM).2 4 = 40 ∧
    (pxfmt_convert_pixels (fun _ => 0)
        (fun a => List.getD [10, 20, 30, 0, 40, 50, 60, 0] a 0) 3 2
        .PXFMT_R8_UNORM .PXFMT_R8_UNORM).2 5 = 50 ∧
    (pxfmt_convert_pixels (fun _ => 0)
        (fun a => List.getD [10, 20, 30, 0, 40, 50, 60, 0] a 0) 3 2
        .PXFMT_R8_UNORM .PXFMT_R8_UNORM).2 2 = 0 ∧
    (from_intermediate_write .PXFMT_R8_UNORM (fun _ => 0) 2
        (to_intermediate .PXFMT_R8_UNORM
          (read_scalars .PXFMT_R8_UNORM
            (fun a => List.getD [10, 20, 30, 0, 40, 50, 60, 0] a 0) 2))) 2
      = 30 := by
  refine ⟨rfl, ?_, ?_, ?_, ?_, ?_, ?_⟩ <;> with_unfolding_all decide

/-- Every format's per-pixel stride (`m_bytes_per_pixel`) is positive. -/
theorem pixel_stride_pos : ∀ fmt : pxfmt_sized_format, 0 < get_pixel_stride fmt := by
  intro fmt
  cases fmt <;> decide

/-- Claim C2: refuted as stated. `PXFMT_R8_UNORM` needs a floating-point
intermediate and `PXFMT_R8_UINT` an integer one, yet at `width = 0` the
converter does not fail with the intermediate-mismatch error: the source
row stride is 0, so the earlier `src_row_stride > 0` assertion fires
first. -/
theorem c2_mismatch_counterexample :
    (fmt_info .PXFMT_R8_UNORM).needs_fp ≠ (fmt_info .PXFMT_R8_UINT).needs_fp ∧
    (pxfmt_convert_pixels (fun _ => 0) (fun _ => 0) 0 1
        .PXFMT_R8_UNORM .PXFMT_R8_UINT).1 = some .assert_src_row_stride ∧
    (some pxfmt_convert_error.assert_src_row_stride ≠
      some pxfmt_convert_error.intermediate_mismatch) := by
  refine ⟨by decide, by decide, by decide⟩

/-- Claim C2, amended: provided both row strides are positive (the pixel
strides always are), a float-vs-integer intermediate mismatch makes the
converter fail with the intermediate-mismatch error before the pixel loop,
returning the destination buffer completely unchanged. -/
theorem c2_mismatch_amended (pDst pSrc : Nat → Nat) (width height : Nat)
    (sf df : pxfmt_sized_format)
    (hs : 0 < get_row_stride sf width) (hd : 0 < get_row_stride df width)
    (hm : (fmt_info sf).needs_fp ≠ (fmt_info df).needs_fp) :
    pxfmt_convert_pixels pDst pSrc width height sf df =
      (some .intermediate_mismatch, pDst) := by
  simp only [pxfmt_convert_pixels]
  rw [if_neg (not_not_intro (pixel_stride_pos sf)), if_neg (not_not_intro hs),
      if_neg (not_not_intro (pixel_stride_pos df)), if_neg (not_not_intro hd),
      if_pos hm]

/-- Witness for the amended C2 at `width = height = 1`,
`PXFMT_R8_UNORM → PXFMT_R8_UINT`, all-zero buffers. -/
theorem c2_mismatch_amended_witness :
    pxfmt_convert_pixels (fun _ => 0) (fun _ => 0) 1 1
        .PXFMT_R8_UNORM .PXFMT_R8_UINT =
      (some .intermediate_mismatch, fun _ => 0) :=
  c2_mismatch_amended (fun _ => 0) (fun _ => 0) 1 1 _ _
    (by decide) (by decide) (by decide)
